import Mathlib

/-!
Verification of the VoiceFlow dictation core.

This file gives a shallow embedding, in Lean, of the parts of the
VoiceFlow source that the checked claims are about:

* `src/app/input/text_inserter.py`  (clipboard paste / restore engine),
* `src/app/audio/capture.py`        (adaptive trailing-tail budget),
* `src/app/transcription/text_refiner.py` (LLM refiner guards),
* `src/app/transcription/text_cleaner.py` (deterministic text cleaner),
* `src/app/transcription/__init__.py`     (pipeline orchestration).

Text is modelled as `List Char`.  Python regular-expression passes are
embedded as hand-written scanning functions; each definition carries a
doc comment quoting the regex or line of source it implements.  Case
folding is ASCII (the Python code uses `re.IGNORECASE` over transcripts
that are ASCII apart from a fixed set of German keywords that already
appear lower-cased in the patterns).  Python `int(x * c)` on the small
float products used by the source is embedded as exact rational / natural
arithmetic; for the ranges that occur the two agree.
-/

namespace VoiceFlow

/-! ### Python string primitives -/

/-- Python whitespace for `str.split` / `str.strip` / regex `\s`
(space, tab, newline, carriage return, vertical tab, form feed). -/
def isPyWs (c : Char) : Bool :=
  c = ' ' || c = '\t' || c = '\n' || c = '\r' || c = Char.ofNat 11 || c = Char.ofNat 12

/-- Regex word character `\w` (ASCII): letters, digits, underscore. -/
def isWordChar (c : Char) : Bool :=
  c.isAlphanum || c = '_'

/-- ASCII lower-casing of a character (Python `str.lower` on ASCII input). -/
def lowerChar (c : Char) : Char := c.toLower

/-- ASCII lower-casing of a string. -/
def lowerStr (s : List Char) : List Char := s.map lowerChar

/-- Python `str.split()` with no argument: split on whitespace runs,
dropping empty fields. -/
def pySplitAux : List Char → List Char → List (List Char)
  | [], acc => if acc.isEmpty then [] else [acc.reverse]
  | c :: rest, acc =>
    if isPyWs c then
      if acc.isEmpty then pySplitAux rest [] else acc.reverse :: pySplitAux rest []
    else pySplitAux rest (c :: acc)

/-- Python `str.split()` (whitespace, no empty fields). -/
def pySplit (s : List Char) : List (List Char) := pySplitAux s []

/-- `len(text.split())`: the whitespace-separated word count. -/
def wordCount (s : List Char) : Nat := (pySplit s).length

/-- Python `str.lstrip()` (default whitespace). -/
def pyStripLeft (s : List Char) : List Char := s.dropWhile isPyWs

/-- Python `str.rstrip()` (default whitespace). -/
def pyStripRight (s : List Char) : List Char := (s.reverse.dropWhile isPyWs).reverse

/-- Python `str.strip()` (default whitespace). -/
def pyStrip (s : List Char) : List Char := pyStripRight (pyStripLeft s)

/-- Python `str.lstrip(cs)` for an explicit character set. -/
def pyStripCharsLeft (cs : List Char) (s : List Char) : List Char :=
  s.dropWhile (fun c => cs.contains c)

/-- Python `str.rstrip(cs)` for an explicit character set. -/
def pyStripCharsRight (cs : List Char) (s : List Char) : List Char :=
  (s.reverse.dropWhile (fun c => cs.contains c)).reverse

/-- Python `str.strip(cs)` for an explicit character set. -/
def pyStripChars (cs : List Char) (s : List Char) : List Char :=
  pyStripCharsRight cs (pyStripCharsLeft cs s)

/-- Case-insensitive literal match: if `s` starts with `pat` (ASCII
case-insensitively), return the remaining input. -/
def dropCI : List Char → List Char → Option (List Char)
  | [], s => some s
  | _, [] => none
  | p :: ps, c :: cs => if p.toLower = c.toLower then dropCI ps cs else none

/-- Try a list of case-insensitive literal alternatives in order (regex
alternation); returns the alternative that matched and the rest. -/
def matchFirstCI : List (List Char) → List Char → Option (List Char × List Char)
  | [], _ => none
  | p :: ps, s =>
    match dropCI p s with
    | some rest => some (p, rest)
    | none => matchFirstCI ps s

/-- Regex `\b` to the left of a word character: the previous character
(`none` = start of string) must not be a word character. -/
def prevNonWord : Option Char → Bool
  | none => true
  | some c => !isWordChar c

/-- Regex `\b` to the right of a word character: the next input must be
empty or start with a non-word character. -/
def boundaryAfter : List Char → Bool
  | [] => true
  | c :: _ => !isWordChar c

/-- Count of leading characters satisfying `p`. -/
def countWhile (p : Char → Bool) : List Char → Nat
  | [] => 0
  | c :: rest => if p c then countWhile p rest + 1 else 0

/-! ### Generic `re.sub` driver

A `Matcher` is given the two characters of the ORIGINAL string just before
the scan position (`p2` then `p1`, `none` at the edges; used for lookbehind)
and the remaining input; it returns the replacement text and the number of
characters consumed (which must be ≥ 1; a result of 0 is treated as no
match).  `gsub` applies it leftmost-first and non-overlapping, exactly as
`re.sub` scans, and never rescans replacement text. -/

def Matcher : Type := Option Char → Option Char → List Char → Option (List Char × Nat)

def gsubAux (m : Matcher) : Nat → Option Char → Option Char → List Char → List Char
  | 0, _, _, s => s
  | _ + 1, _, _, [] => []
  | fuel + 1, p2, p1, c :: rest =>
    match m p2 p1 (c :: rest) with
    | some (rep, k) =>
      if k = 0 then c :: gsubAux m fuel p1 (some c) rest
      else
        let consumed := (c :: rest).take k
        rep ++ gsubAux m fuel
          (if k ≥ 2 then consumed.get? (k - 2) else p1)
          consumed.getLast?
          ((c :: rest).drop k)
    | none => c :: gsubAux m fuel p1 (some c) rest

/-- Leftmost, non-overlapping substitution pass (`re.sub`). -/
def gsub (m : Matcher) (s : List Char) : List Char := gsubAux m s.length none none s

/-- Like `gsub` but collects the consumed text of every match instead of
substituting (`re.finditer` / `re.findall` over whole matches). -/
def scanAux (m : Matcher) : Nat → Option Char → Option Char → List Char → List (List Char)
  | 0, _, _, _ => []
  | _ + 1, _, _, [] => []
  | fuel + 1, p2, p1, c :: rest =>
    match m p2 p1 (c :: rest) with
    | some (_, k) =>
      if k = 0 then scanAux m fuel p1 (some c) rest
      else
        let consumed := (c :: rest).take k
        consumed :: scanAux m fuel
          (if k ≥ 2 then consumed.get? (k - 2) else p1)
          consumed.getLast?
          ((c :: rest).drop k)
    | none => scanAux m fuel p1 (some c) rest

/-- All (leftmost, non-overlapping) matches of a matcher. -/
def scanMatches (m : Matcher) (s : List Char) : List (List Char) :=
  scanAux m s.length none none s

/-- Whether a matcher matches anywhere (`re.search` as a Boolean). -/
def searchAux (m : Matcher) : Nat → Option Char → Option Char → List Char → Bool
  | 0, _, _, _ => false
  | _ + 1, _, _, [] => false
  | fuel + 1, p2, p1, c :: rest =>
    match m p2 p1 (c :: rest) with
    | some _ => true
    | none => searchAux m fuel p1 (some c) rest

/-- `re.search(...)` as a Boolean. -/
def search (m : Matcher) (s : List Char) : Bool := searchAux m s.length none none s

/-- Split after any character in `puncts` that is followed by a whitespace
run, dropping the run: `re.split(r"(?<=[CLASS])\s+", s)`. -/
def splitAfterAux (puncts : List Char) : Nat → List Char → List Char → List (List Char)
  | 0, acc, s => [acc.reverse ++ s]
  | _ + 1, acc, [] => [acc.reverse]
  | fuel + 1, acc, c :: rest =>
    if puncts.contains c && (match rest with | r :: _ => isPyWs r | [] => false) then
      (c :: acc).reverse :: splitAfterAux puncts fuel [] (rest.dropWhile isPyWs)
    else
      splitAfterAux puncts fuel (c :: acc) rest

/-- `re.split(r"(?<=[CLASS])\s+", s)` (the split used for sentences and
clauses; keeps a trailing empty field exactly as `re.split` does). -/
def splitAfter (puncts : List Char) (s : List Char) : List (List Char) :=
  splitAfterAux puncts s.length [] s

end VoiceFlow

namespace VoiceFlow

/-! ### `src/app/audio/capture.py` — adaptive trailing-tail budget -/

/-- `AudioCapture.TRAILING_CAPTURE_MS = 280`. -/
def TRAILING_CAPTURE_MS : Nat := 280

/-- `AudioCapture._default_trailing_capture_ms` (capture.py lines 98-117).
The argument is `none` when `self._started_at is None`, otherwise
`some e` where `e` is the elapsed monotonic time in seconds
(`time.monotonic() - self._started_at`), modelled as a rational. -/
def default_trailing_capture_ms : Option ℚ → Nat
  | none => TRAILING_CAPTURE_MS
  | some e =>
    let d := max 0 e
    if d ≥ 180 then 1100
    else if d ≥ 120 then 960
    else if d ≥ 60 then 820
    else if d ≥ 30 then 700
    else if d ≥ 14 then 520
    else if d ≥ 8 then 420
    else if d ≥ 4 then 340
    else TRAILING_CAPTURE_MS

/-! ### `src/app/transcription/text_refiner.py` — token budget -/

/-- `TextRefiner.refine` (text_refiner.py line 165):
`max_tokens = min(max(int(len(text.split()) * 1.8), 32), 128)`.
`int(n * 1.8)` on a word count `n` equals `⌊9n/5⌋` exactly (the double
rounding error of `n * 1.8` is far below the distance to the nearest
integer for every `n`, and beyond the 128 cap it cannot matter). -/
def refineMaxTokens (text : List Char) : Nat :=
  min (max (9 * wordCount text / 5) 32) 128

/-- `make_sampler(temp=0.0)` (text_refiner.py line 166): greedy sampling. -/
def refineTemperature : ℚ := 0

/-- The spec's formula for the refiner token budget, modelled from the
spec sentence "Max output tokens = `clamp(⌈word_count × 1.2⌉, 20, 80)`"
(for comparison with `refineMaxTokens`, which is the code's formula).
`⌈n × 1.2⌉ = ⌈6n/5⌉ = (6n + 4) / 5` in natural arithmetic. -/
def specMaxTokens (text : List Char) : Nat :=
  min (max ((6 * wordCount text + 4) / 5) 20) 80

/-! ### `src/app/transcription/__init__.py` — token overlap search -/

/-- `_MIN_OVERLAP_WORDS = 4`. -/
def MIN_OVERLAP_WORDS : Nat := 4

/-- `_MAX_OVERLAP_WORDS = 20`. -/
def MAX_OVERLAP_WORDS : Nat := 20

/-- `[hi, hi - 1, ..., lo]` (Python `range(hi, lo - 1, -1)`). -/
def descRange (hi lo : Nat) : List Nat :=
  (List.range (hi + 1 - lo)).map (fun i => hi - i)

/-- Positionwise mismatches between two token lists (`sum(1 for a, b in
zip(l_slice, r_slice) if a != b)`). -/
def mismatchCount (l r : List (List Char)) : Nat :=
  (l.zip r).countP (fun p => decide (p.1 ≠ p.2))

/-- `TranscriptionPipeline._find_token_overlap` (__init__.py lines 458-475):
largest exact suffix/prefix token overlap in `[4, 20]`, then a fuzzy pass
for sizes in `[6, 20]` allowing `size // 6` mismatches. -/
def find_token_overlap (left right : List (List Char)) : Nat :=
  if left.isEmpty || right.isEmpty then 0
  else
    let upper := min MAX_OVERLAP_WORDS (min left.length right.length)
    match (descRange upper MIN_OVERLAP_WORDS).find?
        (fun size => decide (left.drop (left.length - size) = right.take size)) with
    | some size => size
    | none =>
      match (descRange upper (max MIN_OVERLAP_WORDS 6)).find?
          (fun size =>
            decide (mismatchCount (left.drop (left.length - size)) (right.take size)
              ≤ size / 6)) with
      | some size => size
      | none => 0

/-! ### `src/app/input/text_inserter.py` — paste / clipboard-restore model

The inserter manipulates two pieces of process-wide state: the system
clipboard and the `_restore_generation` counter (guarded by `_restore_lock`;
the per-step lock acquisitions make each numbered step below atomic).
A single `insert` call is modelled as the sequence of atomic steps the
source performs, with an external-interference slot at every `time.sleep`:
`env1` (the settle delay), `env2` (the paste delay) and `env3` (the
synchronous restore delay) are clipboard writes the rest of the system may
perform while the inserter sleeps (`none` = nobody touched the clipboard).
The deferred restore (texts of ≥ 420 characters) is returned as a pending
timer payload and executed later by `restore_clipboard_if_safe` on whatever
state holds at firing time. -/

/-- Process-wide state the inserter touches.  The clipboard is modelled as
text content; a run in which `_get_clipboard()` returns `None` (no text on
the clipboard) skips the restore entirely through the
`original is not None` guard and is not modelled here — every modelled
restoring run has a saved original. -/
structure ClipState where
  clipboard : List Char
  generation : Nat
  lastError : Option (List Char)
deriving DecidableEq, Repr

/-- External clipboard interference during one of the inserter's sleeps. -/
def applyEnv (s : ClipState) : Option (List Char) → ClipState
  | none => s
  | some v => { s with clipboard := v }

/-- `TextInserter._ASYNC_RESTORE_CHARS = 420`. -/
def ASYNC_RESTORE_CHARS : Nat := 420

/-- The message stored in `last_error` when accessibility is not granted. -/
def accessibilityError : List Char :=
  ("Accessibility permission required for paste. Text has been copied to your clipboard.").toList

/-- Everything one `TextInserter.insert` call produces. -/
structure InsertOutcome where
  ok : Bool
  state : ClipState
  pastePerformed : Bool
  /-- Clipboard values written by the inserter itself, in order. -/
  inserterWrites : List (List Char)
  /-- Clipboard content the synchronous path observed at the moment it
  performed its restore write (`none` when no synchronous restore ran). -/
  clipAtSyncRestore : Option (List Char)
  /-- `(token, inserted text, original)` of a scheduled deferred restore. -/
  pendingRestore : Option (Nat × List Char × List Char)
deriving DecidableEq, Repr

/-- `TextInserter.insert(text, restore_clipboard)` (text_inserter.py lines
52-111), for an execution in which no OS call raises: reset `last_error`;
empty text returns `True` at once; otherwise save the clipboard and bump
the generation (when restoring), write `text` to the clipboard, sleep
(`env1`), probe accessibility (the untrusted branch records the error and
returns `False` with the text left on the clipboard), synthesize the paste,
sleep (`env2`), then either schedule the deferred restore (≥ 420 chars) or
sleep (`env3`) and write `original` back unconditionally. -/
def insert (s0 : ClipState) (text : List Char) (restore_clipboard : Bool)
    (trusted : Bool) (env1 env2 env3 : Option (List Char)) : InsertOutcome :=
  let s0 := { s0 with lastError := none }
  if text.isEmpty then
    ⟨true, s0, false, [], none, none⟩
  else
    let original := s0.clipboard
    let s1 := if restore_clipboard then { s0 with generation := s0.generation + 1 } else s0
    let token := s1.generation
    let s2 := { s1 with clipboard := text }
    let s3 := applyEnv s2 env1
    if !trusted then
      ⟨false, { s3 with lastError := some accessibilityError }, false, [text], none, none⟩
    else
      let s4 := applyEnv s3 env2
      if restore_clipboard then
        if text.length ≥ ASYNC_RESTORE_CHARS then
          ⟨true, s4, true, [text], none, some (token, text, original)⟩
        else
          let s5 := applyEnv s4 env3
          ⟨true, { s5 with clipboard := original }, true, [text, original],
            some s5.clipboard, none⟩
      else
        ⟨true, s4, true, [text], none, none⟩

/-- `TextInserter._restore_clipboard_if_safe` (text_inserter.py lines
113-130): the deferred restore body.  Restores only when the token still
equals the current `_restore_generation` and the clipboard still equals the
inserted text.  The source reads the clipboard and writes it back in two
adjacent calls; that read-check-write is modelled as one atomic step on
the state at firing time (`s.clipboard` is the value the read observes). -/
def restore_clipboard_if_safe (s : ClipState) (token : Nat)
    (insertedText originalText : List Char) : ClipState :=
  if token ≠ s.generation then s
  else if s.clipboard ≠ insertedText then s
  else { s with clipboard := originalText }

end VoiceFlow

namespace VoiceFlow

/-! ### Shared regex fragments of the refiner and the pipeline

A "phrase alternative" is a list of tokens; matching a phrase consumes the
tokens case-insensitively with `\s+` between them (the exact shape of the
multi-word question and answer alternations below; the assistant pattern
instead uses literal single spaces and gets its own literal matcher). -/

/-- Match a phrase (tokens joined by `\s+`), returning the rest. -/
def dropPhraseCI : List (List Char) → List Char → Option (List Char)
  | [], s => some s
  | [w], s => dropCI w s
  | w :: ws, s =>
    match dropCI w s with
    | none => none
    | some rest =>
      let n := countWhile isPyWs rest
      if n = 0 then none else dropPhraseCI ws (rest.drop n)

/-- Regex `\b` at the seam between a consumed literal ending in `lastCh`
and the remaining input. -/
def boundarySeam (lastCh : Char) (rest : List Char) : Bool :=
  isWordChar lastCh != (match rest with | c :: _ => isWordChar c | [] => false)

/-- `^\s*(alt|…)\b` as a Boolean: skip leading whitespace, then some phrase
alternative followed by a word boundary. -/
def startAnchoredAny (alts : List (List (List Char))) (s : List Char) : Bool :=
  let t := s.drop (countWhile isPyWs s)
  alts.any fun alt =>
    match dropPhraseCI alt t with
    | none => false
    | some rest =>
      match alt.getLast? with
      | none => false
      | some w =>
        match w.getLast? with
        | none => false
        | some lastCh => boundarySeam lastCh rest

/-- The alternatives of `_QUESTION_START_RE` (identical in
text_refiner.py lines 10-17 and __init__.py lines 51-58). -/
def questionStartAlts : List (List (List Char)) :=
  [["who".toList], ["what".toList], ["when".toList], ["where".toList], ["why".toList],
   ["how".toList], ["is".toList], ["are".toList], ["am".toList], ["was".toList],
   ["were".toList], ["do".toList], ["does".toList], ["did".toList], ["can".toList],
   ["could".toList], ["should".toList], ["would".toList], ["will".toList],
   ["which".toList], ["whose".toList], ["whom".toList], ["what's".toList],
   ["whats".toList], ["isn't".toList], ["aren't".toList], ["won't".toList],
   ["can't".toList], ["couldn't".toList], ["shouldn't".toList], ["wouldn't".toList],
   ["wer".toList], ["wann".toList], ["wo".toList], ["warum".toList], ["wie".toList],
   ["ist".toList], ["sind".toList], ["bin".toList], ["war".toList], ["waren".toList],
   ["kann".toList], ["kannst".toList], ["können".toList], ["soll".toList],
   ["sollte".toList], ["würde".toList], ["hat".toList], ["haben".toList],
   ["gibt".toList], ["gibt's".toList]]

/-- `_QUESTION_START_RE.match(s)` as a Boolean. -/
def questionStart (s : List Char) : Bool := startAnchoredAny questionStartAlts s

/-- The alternatives of `_ANSWER_START_RE` (text_refiner.py lines 58-63). -/
def answerStartAlts : List (List (List Char)) :=
  [["yes".toList], ["no".toList], ["it".toList, "is".toList], ["it's".toList],
   ["this".toList, "is".toList], ["the".toList, "answer".toList],
   ["you".toList, "can".toList], ["you".toList, "should".toList],
   ["because".toList], ["in".toList, "summary".toList],
   ["to".toList, "answer".toList], ["ja".toList], ["nein".toList],
   ["die".toList, "antwort".toList], ["du".toList, "kannst".toList],
   ["sie".toList, "können".toList], ["weil".toList],
   ["kurz".toList, "gesagt".toList]]

/-- `_ANSWER_START_RE.match(s)` as a Boolean. -/
def answerStart (s : List Char) : Bool := startAnchoredAny answerStartAlts s

/-- Anchored match of literal alternatives: `^\s*(lit|…)\b` where each
alternative is a plain literal consumed case-insensitively character by
character, so a space inside it matches exactly one space. -/
def startAnchoredAnyLit (alts : List (List Char)) (s : List Char) : Bool :=
  let t := s.drop (countWhile isPyWs s)
  alts.any fun alt =>
    match dropCI alt t with
    | none => false
    | some rest =>
      match alt.getLast? with
      | none => false
      | some lastCh => boundarySeam lastCh rest

/-- The alternatives of `_ASSISTANTY_START_RE` (text_refiner.py lines
64-68).  Unlike the question and answer patterns, this regex joins its
multi-word openers with literal single spaces rather than a whitespace
class, so the alternatives are kept as flat literals here and "here  is"
(two spaces) does not match; `here(?:'s| is)` contributes two
alternatives, and `first,` keeps its comma (the `\b` after it then
demands a following word character). -/
def assistantStartAlts : List (List Char) :=
  ["sure".toList, "certainly".toList, "absolutely".toList,
   "here's".toList, "here is".toList, "let's".toList,
   "i can".toList, "you can".toList, "to do this".toList,
   "first,".toList, "here are".toList, "this version".toList]

/-- `_ASSISTANTY_START_RE.match(s)` as a Boolean. -/
def assistantStart (s : List Char) : Bool := startAnchoredAnyLit assistantStartAlts s

/-! ### `src/app/transcription/text_refiner.py` — answer-drift guard -/

/-- Characters of `_TOKEN_RE = [A-Za-z0-9_']+` (text_refiner.py line 18). -/
def isRefTokenChar (c : Char) : Bool := c.isAlphanum || c = '_' || c = '\''

/-- `re.findall` of maximal runs of characters satisfying `p` (fuelled). -/
def findRunsAux (p : Char → Bool) : Nat → List Char → List (List Char)
  | 0, _ => []
  | _ + 1, [] => []
  | fuel + 1, c :: rest =>
    if p c then (c :: rest.takeWhile p) :: findRunsAux p fuel (rest.dropWhile p)
    else findRunsAux p fuel rest

/-- `re.findall` of maximal runs of characters satisfying `p`. -/
def findRuns (p : Char → Bool) (s : List Char) : List (List Char) :=
  findRunsAux p s.length s

/-- `_COMMON_WORDS` (text_refiner.py lines 19-57). -/
def COMMON_WORDS : List (List Char) :=
  ["a", "an", "and", "are", "as", "at", "be", "but", "by", "for", "from", "how",
   "i", "in", "is", "it", "its", "me", "my", "of", "on", "or", "our", "that",
   "the", "this", "to", "we", "what", "when", "where", "which", "who", "why",
   "with", "you", "your"].map String.toList

/-- `TextRefiner._keywords` (text_refiner.py lines 229-236): lower-cased
`_TOKEN_RE` tokens of length > 2 outside the stop list, as a set (a
deduplicated list here; only membership and size are ever used). -/
def keywords (text : List Char) : List (List Char) :=
  (((findRuns isRefTokenChar text).map lowerStr).filter
    (fun t => decide (t.length > 2) && !COMMON_WORDS.contains t)).dedup

/-- `TextRefiner._looks_like_question` (text_refiner.py lines 224-227). -/
def looks_like_question (text : List Char) : Bool :=
  let stripped := pyStrip text
  stripped.getLast? = some '?' || questionStart stripped

/-- Python `str.startswith(pat)` (case-sensitive literal prefix). -/
def startsWithLit (pat s : List Char) : Bool := pat.isPrefixOf s

/-- `TextRefiner._is_answer_like` (text_refiner.py lines 238-268).
The novelty-ratio test `len(new)/len(cand) > 0.45` is the exact rational
comparison `20·len(new) > 9·len(cand)`. -/
def is_answer_like (source candidate : List Char) : Bool :=
  let source_words := pySplit source
  let candidate_words := pySplit candidate
  if candidate_words.length > max (source_words.length * 2) (source_words.length + 12) then
    true
  else
    let lower_candidate := lowerStr (pyStrip candidate)
    if startsWithLit ("answer:").toList lower_candidate
        || startsWithLit ("response:").toList lower_candidate
        || startsWithLit ("explanation:").toList lower_candidate then true
    else if assistantStart candidate && !assistantStart source then true
    else
      let source_is_question := looks_like_question source
      let candidate_is_question := looks_like_question candidate
      if source_is_question && answerStart lower_candidate then true
      else if source_is_question && !candidate_is_question
          && !questionStart lower_candidate then true
      else
        let source_keywords := keywords source
        let candidate_keywords := keywords candidate
        if candidate_keywords.length ≠ 0 then
          let new_tokens :=
            (candidate_keywords.filter (fun t => !source_keywords.contains t)).length
          20 * new_tokens > 9 * candidate_keywords.length
            && candidate_keywords.length ≥ 6
        else false

end VoiceFlow

namespace VoiceFlow

/-! ### `src/app/transcription/text_cleaner.py` — filler passes -/

/-- A whole word matching `_FILLER_REMOVE[0]`'s alternation
`um+|uh+|hmm+|hm+|ah+|eh+|er+|oh+` (case-insensitive; `hmm+ ⊆ hm+`). -/
def isFillerWordRun (w : List Char) : Bool :=
  match lowerStr w with
  | [] => false
  | c :: rest =>
    !rest.isEmpty &&
    ((c = 'u' && rest.all (· = 'm')) || (c = 'u' && rest.all (· = 'h')) ||
     (c = 'h' && rest.all (· = 'm')) || (c = 'a' && rest.all (· = 'h')) ||
     (c = 'e' && rest.all (· = 'h')) || (c = 'e' && rest.all (· = 'r')) ||
     (c = 'o' && rest.all (· = 'h')))

/-- `_FILLER_REMOVE[0]`: `\b(um+|uh+|…)\b` → `''`.  Because of the word
boundaries the pattern matches exactly the maximal `\w+` runs of that
shape. -/
def fillerWordMatcher : Matcher := fun _ p1 s =>
  if prevNonWord p1 then
    let run := s.takeWhile isWordChar
    if !run.isEmpty && isFillerWordRun run then some ([], run.length) else none
  else none

/-- `_FILLER_REMOVE[1]`: `\b(so yeah|and yeah|yeah so|right so)\b[.,]?` → `''`. -/
def fillerPairMatcher : Matcher := fun _ p1 s =>
  if prevNonWord p1 then
    match matchFirstCI
        [("so yeah").toList, ("and yeah").toList, ("yeah so").toList,
         ("right so").toList] s with
    | none => none
    | some (p, rest) =>
      if boundaryAfter rest then
        let extra := match rest with
          | c :: _ => if c = '.' || c = ',' then 1 else 0
          | [] => 0
        some ([], p.length + extra)
      else none
  else none

/-- The `(?:(?:okay|ok|well|so)\s*,?\s*)+` repetition of `_LEADING_DISCOURSE`
(no word boundary after the alternatives: `okaything` loses its `okay`).
Returns the input after the greedy repeat, `none` if no iteration matched. -/
def leadingDiscourseLoop : Nat → List Char → Option (List Char)
  | 0, _ => none
  | fuel + 1, s =>
    match matchFirstCI [("okay").toList, ("ok").toList, ("well").toList, ("so").toList] s with
    | none => none
    | some (_, rest) =>
      let r1 := rest.drop (countWhile isPyWs rest)
      let r2 := match r1 with | ',' :: t => t | _ => r1
      let r3 := r2.drop (countWhile isPyWs r2)
      match leadingDiscourseLoop fuel r3 with
      | some r' => some r'
      | none => some r3

/-- `_LEADING_DISCOURSE.sub('', s)`: `^\s*(?:(?:okay|ok|well|so)\s*,?\s*)+`
removed (anchored; the leading whitespace goes only when at least one
discourse word matched). -/
def stripLeadingDiscourse (s : List Char) : List Char :=
  let t := s.drop (countWhile isPyWs s)
  match leadingDiscourseLoop s.length t with
  | some rest => rest
  | none => s

/-- `_INLINE_DISCOURSE_RE.sub(' ', s)`:
`\b(?:we can see|you can see|we'?ll see|let'?s see)\b` → `' '`
(`we'?ll` also matches `well`, `let'?s` also matches `lets`). -/
def inlineDiscourseMatcher : Matcher := fun _ p1 s =>
  if prevNonWord p1 then
    match matchFirstCI
        [("we can see").toList, ("you can see").toList, ("we'll see").toList,
         ("well see").toList, ("let's see").toList, ("lets see").toList] s with
    | none => none
    | some (p, rest) => if boundaryAfter rest then some ((" ").toList, p.length) else none
  else none

/-- `_HESITATION_CHAIN_RE.sub('maybe', s)`:
`\b(?:i don't know|i do not know)\s+(?:yeah\s+)?maybe\b` → `maybe`. -/
def hesitationChainMatcher : Matcher := fun _ p1 s =>
  if prevNonWord p1 then
    match matchFirstCI [("i don't know").toList, ("i do not know").toList] s with
    | none => none
    | some (_, rest) =>
      let w := countWhile isPyWs rest
      if w = 0 then none
      else
        let r1 := rest.drop w
        let viaYeah : Option Nat :=
          match dropCI ("yeah").toList r1 with
          | none => none
          | some r2 =>
            let w2 := countWhile isPyWs r2
            if w2 = 0 then none
            else
              match dropCI ("maybe").toList (r2.drop w2) with
              | none => none
              | some r3 => if boundaryAfter r3 then some (s.length - r3.length) else none
        match viaYeah with
        | some k => some (("maybe").toList, k)
        | none =>
          match dropCI ("maybe").toList r1 with
          | none => none
          | some r3 =>
            if boundaryAfter r3 then some (("maybe").toList, s.length - r3.length) else none
  else none

/-- `_YEAH_FILLER_RE.sub(' ', s)`:
`(?:(?<=\s)|^)(?:yeah|yep)(?=(?:\s|$|[,.!?;:]))` → `' '` (the lookahead is
not consumed). -/
def yeahFillerMatcher : Matcher := fun _ p1 s =>
  let okPrev := match p1 with | none => true | some c => isPyWs c
  if okPrev then
    match matchFirstCI [("yeah").toList, ("yep").toList] s with
    | none => none
    | some (p, rest) =>
      let okNext := match rest with
        | [] => true
        | c :: _ => isPyWs c || c = ',' || c = '.' || c = '!' || c = '?' || c = ';' || c = ':'
      if okNext then some ((" ").toList, p.length) else none
  else none

/-- `_FILLER_REPLACE_SPACE.sub(' ', s)`:
`,?\s*\b(you know|sort of|kind of|basically|literally)\b\s*,?` → `' '`. -/
def discourseFillerMatcher : Matcher := fun _ p1 s =>
  let lead := match s with
    | ',' :: t => (1, t)
    | _ => (0, s)
  let c0 := lead.1
  let r0 := lead.2
  let w := countWhile isPyWs r0
  let r1 := r0.drop w
  if c0 + w > 0 || prevNonWord p1 then
    match matchFirstCI
        [("you know").toList, ("sort of").toList, ("kind of").toList,
         ("basically").toList, ("literally").toList] r1 with
    | none => none
    | some (_, rest) =>
      if boundaryAfter rest then
        let w2 := countWhile isPyWs rest
        let c2 := match rest.drop w2 with | ',' :: _ => 1 | _ => 0
        some ((" ").toList, s.length - rest.length + w2 + c2)
      else none
  else none

/-- The greedy `(\s+\1)+` repetitions of `_REPEATED_WORD`: lengths of each
`whitespace-run ++ w` repetition (the back-reference is matched
case-insensitively, and may end mid-word; the caller re-checks the final
word boundary). -/
def repeatedReps (w : List Char) : Nat → List Char → List Nat
  | 0, _ => []
  | fuel + 1, s =>
    let n := countWhile isPyWs s
    if n = 0 then []
    else
      match dropCI w (s.drop n) with
      | none => []
      | some rest => (n + w.length) :: repeatedReps w fuel rest

/-- `_REPEATED_WORD.sub(cls._dedupe_repeated_word, s)`:
`\b(\w+)(\s+\1)+\b` replaced by the first token, except that a repeated
`no` is kept verbatim (text_cleaner.py lines 343-349).  If the trailing
word boundary fails after the last repetition, the regex backtracks by
dropping that repetition (any earlier seam is whitespace, where `\b`
holds). -/
def repeatedWordMatcher : Matcher := fun _ p1 s =>
  if prevNonWord p1 && (match s with | c :: _ => isWordChar c | [] => false) then
    let w := s.takeWhile isWordChar
    let rest := s.drop w.length
    let reps := repeatedReps w rest.length rest
    if reps.isEmpty then none
    else
      let total := reps.foldl (· + ·) 0
      let kOpt :=
        if boundaryAfter (rest.drop total) then some (w.length + total)
        else if reps.length ≥ 2 then some (w.length + total - (reps.getLast?.getD 0))
        else none
      match kOpt with
      | none => none
      | some k =>
        if lowerStr w = ("no").toList then some (s.take k, k)
        else some (w, k)
  else none

/-! ### `src/app/transcription/text_cleaner.py` — spoken acronyms -/

/-- `_JS_CONTEXT_HINTS` (text_cleaner.py lines 159-171). -/
def JS_CONTEXT_HINTS : List (List Char) :=
  ["next", "react", "node", "express", "nest", "vite", "vue", "nuxt", "remix",
   "solid", "plate"].map String.toList

/-- One spelled-acronym pattern `\b(w1\s+w2|c1\s*\.?\s*c2)\b` → `rep`
(`_SPELLED_JS_RE` with `jay/ess/j/s → JS`, `_SPELLED_TS_RE` with
`tea/ess/t/s → TS`). -/
def spelledAcronymMatcher (w1 w2 : List Char) (c1 c2 : Char) (rep : List Char) : Matcher :=
  fun _ p1 s =>
  if prevNonWord p1 then
    let alt1 : Option Nat :=
      match dropCI w1 s with
      | none => none
      | some r1 =>
        let n := countWhile isPyWs r1
        if n = 0 then none
        else
          match dropCI w2 (r1.drop n) with
          | none => none
          | some r2 => if boundaryAfter r2 then some (s.length - r2.length) else none
    match alt1 with
    | some k => some (rep, k)
    | none =>
      match s with
      | c :: r1 =>
        if c.toLower = c1 then
          let n1 := countWhile isPyWs r1
          let r2 := r1.drop n1
          let dot := match r2 with | '.' :: t => (1, t) | _ => (0, r2)
          let n2 := countWhile isPyWs dot.2
          match dot.2.drop n2 with
          | c' :: r5 =>
            if c'.toLower = c2 && boundaryAfter r5 then
              some (rep, 1 + n1 + dot.1 + n2 + 1)
            else none
          | [] => none
        else none
      | [] => none
  else none

/-- Characters of the `_JS_HOMOPHONE_RE` base class `[A-Za-z0-9_-]`. -/
def isBaseChar (c : Char) : Bool := c.isAlphanum || c = '_' || c = '-'

/-- `_JS_HOMOPHONE_RE.sub(_js_homophone, s)`:
`\b(?P<base>[A-Za-z][A-Za-z0-9_-]*)\s+chess\b`; bases in
`_JS_CONTEXT_HINTS` become `base JS`, anything else is left as matched
(text_cleaner.py lines 616-620). -/
def jsHomophoneMatcher : Matcher := fun _ p1 s =>
  if prevNonWord p1 && (match s with | c :: _ => c.isAlpha | [] => false) then
    let base := match s with
      | c :: rest => c :: rest.takeWhile isBaseChar
      | [] => []
    let r1 := s.drop base.length
    let n := countWhile isPyWs r1
    if n = 0 then none
    else
      match dropCI ("chess").toList (r1.drop n) with
      | none => none
      | some r2 =>
        if boundaryAfter r2 then
          let k := s.length - r2.length
          if JS_CONTEXT_HINTS.contains (lowerStr base) then
            some (base ++ (" JS").toList, k)
          else some (s.take k, k)
        else none
  else none

/-- `TextCleaner._normalize_spoken_acronyms` (text_cleaner.py lines
611-622). -/
def normalize_spoken_acronyms (text : List Char) : List Char :=
  let t := gsub (spelledAcronymMatcher ("jay").toList ("ess").toList 'j' 's' ("JS").toList) text
  let t := gsub (spelledAcronymMatcher ("tea").toList ("ess").toList 't' 's' ("TS").toList) t
  gsub jsHomophoneMatcher t

/-! ### dictionary replacement -/

/-- Stable insertion into a list sorted by descending key length. -/
def insertByLenDesc (p : List Char × List Char) :
    List (List Char × List Char) → List (List Char × List Char)
  | [] => [p]
  | q :: rest =>
    if q.1.length > p.1.length then q :: insertByLenDesc p rest else p :: q :: rest

/-- `sorted(dictionary.items(), key=lambda kv: -len(kv[0]))` (a stable
descending sort by key length). -/
def sortByKeyLenDesc : List (List Char × List Char) → List (List Char × List Char)
  | [] => []
  | p :: rest => insertByLenDesc p (sortByKeyLenDesc rest)

/-- The dictionary loop of `TextCleaner.clean` (text_cleaner.py lines
290-292): for each entry, longest key first,
`re.sub(re.escape(wrong), right, text, flags=re.IGNORECASE)` (the
replacement is taken literally; keys are assumed nonempty). -/
def applyDictionary (dictionary : List (List Char × List Char)) (text : List Char) : List Char :=
  (sortByKeyLenDesc dictionary).foldl
    (fun t kv =>
      gsub (fun _ _ s =>
        if kv.1.isEmpty then none
        else match dropCI kv.1 s with
          | some _ => some (kv.2, kv.1.length)
          | none => none) t)
    text

end VoiceFlow

namespace VoiceFlow

/-! ### `src/app/transcription/text_cleaner.py` — self-correction rewriting -/

/-- Case-sensitive literal prefix consumption. -/
def dropLit : List Char → List Char → Option (List Char)
  | [], s => some s
  | _, [] => none
  | p :: ps, c :: cs => if p = c then dropLit ps cs else none

/-- A cue alternative: consumes the cue from the input, if it matches. -/
def CueAlt : Type := List Char → Option (List Char)

/-- A literal cue (literal spaces between its words). -/
def litCI (s : String) : CueAlt := dropCI s.toList

/-- `no\s*,?\s*no` (inline corrections; also matches `nono`). -/
def dropNoOptCommaNo : CueAlt := fun s =>
  match dropCI ("no").toList s with
  | none => none
  | some r1 =>
    let r2 := r1.drop (countWhile isPyWs r1)
    let r3 := match r2 with | ',' :: t => t | _ => r2
    dropCI ("no").toList (r3.drop (countWhile isPyWs r3))

/-- `no\s*,\s*no` (leading corrections; the comma is required). -/
def dropNoCommaNo : CueAlt := fun s =>
  match dropCI ("no").toList s with
  | none => none
  | some r1 =>
    match r1.drop (countWhile isPyWs r1) with
    | ',' :: r2 => dropCI ("no").toList (r2.drop (countWhile isPyWs r2))
    | _ => none

/-- `no\s+no` (leading corrections; at least one whitespace). -/
def dropNoWsNo : CueAlt := fun s =>
  match dropCI ("no").toList s with
  | none => none
  | some r1 =>
    let n := countWhile isPyWs r1
    if n = 0 then none else dropCI ("no").toList (r1.drop n)

/-- The cue alternation of `_INLINE_CORRECTION` (text_cleaner.py lines
37-43), in source order. -/
def inlineCueAlts : List CueAlt :=
  [litCI "sorry", litCI "rather", litCI "i mean", litCI "i meant",
   litCI "no wait", litCI "wait no", dropNoOptCommaNo, litCI "scratch that",
   litCI "never mind that", litCI "never mind", litCI "let me rephrase"]

/-- The cue alternation of `_CORRECTION_PREFIX` (text_cleaner.py lines
31-36), in source order. -/
def leadingCueAlts : List CueAlt :=
  [dropNoCommaNo, dropNoWsNo, litCI "sorry", litCI "rather", litCI "correction",
   litCI "i mean", litCI "i meant", litCI "wait no", litCI "no wait",
   litCI "scratch that", litCI "never mind that", litCI "never mind",
   litCI "let me rephrase"]

/-- The junk class `[\s,:-]` that both correction patterns skip after the
cue. -/
def isCueJunk (c : Char) : Bool := isPyWs c || c = ',' || c = ':' || c = '-'

/-- Try `(cue)\b[\s,:-]*(.+)$` at `s` (the suffix of an inline-correction
sentence after the separator): first cue alternative, in order, whose word
boundary holds and that leaves a nonempty replacement.  When the greedy
junk run reaches the end the regex backtracks one junk character into the
replacement. -/
def tryCueList : List CueAlt → List Char → Option (List Char × List Char)
  | [], _ => none
  | a :: rest, s =>
    let attempt :=
      match a s with
      | some r =>
        let cueText := s.take (s.length - r.length)
        if boundarySeam (cueText.getLast?.getD ' ') r then
          let j := countWhile isCueJunk r
          if r.length > j then some (cueText, r.drop j)
          else if j ≥ 1 then some (cueText, r.drop (j - 1))
          else none
        else none
      | none => none
    match attempt with
    | some res => some res
    | none => tryCueList rest s

/-- `_INLINE_CORRECTION.match(sentence)` (text_cleaner.py lines 37-43):
`^(?P<prefix>.+?)\s*(?:,\s*|\s+)(?P<cue>…)\b[\s,:-]*(?P<replacement>.+)$`.
Returns `(prefix, cue text, replacement)` for the earliest (lazy) prefix
split that parses; the sentence is assumed newline-free (`.` does not match
a newline). -/
def inlineCorrectionAux : Nat → List Char → List Char → Option (List Char × List Char × List Char)
  | 0, _, _ => none
  | fuel + 1, pre, s =>
    match s with
    | [] => none
    | c :: rest =>
      let pre' := c :: pre
      let attempt :=
        let n1 := countWhile isPyWs rest
        let r1 := rest.drop n1
        let sep :=
          match r1 with
          | ',' :: t => (true, t.drop (countWhile isPyWs t))
          | _ => (decide (n1 ≥ 1), r1)
        if sep.1 then
          match tryCueList inlineCueAlts sep.2 with
          | some (cueText, repl) => some (pre'.reverse, cueText, repl)
          | none => none
        else none
      match attempt with
      | some res => some res
      | none => inlineCorrectionAux fuel pre' rest

/-- `_INLINE_CORRECTION.match(sentence)` as `(prefix, cue, replacement)`. -/
def inlineCorrection (s : List Char) : Option (List Char × List Char × List Char) :=
  inlineCorrectionAux s.length [] s

/-- The leading-correction match `_CORRECTION_PREFIX.match(sentence)`
(text_cleaner.py lines 31-36): `^\s*(?P<cue>…)\b[\s,:-]*`.  Returns the cue
group's text and `match.end()`. -/
def leadingCueScan : List CueAlt → List Char → Option (List Char × List Char)
  | [], _ => none
  | a :: rest, t =>
    let attempt :=
      match a t with
      | some r =>
        let cueText := t.take (t.length - r.length)
        if boundarySeam (cueText.getLast?.getD ' ') r then
          some (cueText, r.drop (countWhile isCueJunk r))
        else none
      | none => none
    match attempt with
    | some res => some res
    | none => leadingCueScan rest t

/-- `_CORRECTION_PREFIX.match(sentence)`: `some (cueText, matchEnd)`. -/
def leadingCorrection (s : List Char) : Option (List Char × Nat) :=
  let t := s.drop (countWhile isPyWs s)
  match leadingCueScan leadingCueAlts t with
  | some (cueText, rest) => some (cueText, s.length - rest.length)
  | none => none

/-- Collapse every whitespace run to one space: `re.sub(r"\s+", " ", s)`. -/
def collapseWsRuns (s : List Char) : List Char :=
  gsub (fun _ _ t =>
    let n := countWhile isPyWs t
    if n ≥ 1 then some ((" ").toList, n) else none) s

/-- `TextCleaner._normalize_cue` (text_cleaner.py lines 385-388):
strip, lower, commas to spaces, collapse whitespace. -/
def normalize_cue (cue : List Char) : List Char :=
  collapseWsRuns ((lowerStr (pyStrip cue)).map (fun c => if c = ',' then ' ' else c))

/-- `_STRONG_REPLACE_CUES` (text_cleaner.py lines 256-268). -/
def STRONG_REPLACE_CUES : List (List Char) :=
  ["no no", "no wait", "wait no", "i mean", "i meant", "rather", "correction",
   "scratch that", "never mind", "never mind that", "let me rephrase"].map String.toList

/-- `_WEAK_REPLACE_CUES = {"sorry"}` (text_cleaner.py line 269). -/
def WEAK_REPLACE_CUES : List (List Char) := [("sorry").toList]

/-! #### the structural merge patterns -/

/-- Alternation of whole words, each checked with its trailing `\b`
(regex backtracking tries the next alternative when the boundary fails). -/
def matchWordAlt : List (List Char) → List Char → Option (List Char × List Char)
  | [], _ => none
  | p :: rest, s =>
    match dropCI p s with
    | some r =>
      if boundarySeam (p.getLast?.getD ' ') r then some (p, r) else matchWordAlt rest s
    | none => matchWordAlt rest s

/-- `i\s+(?:want|need)\s+to\s+`: the intent lead with its trailing
whitespace; returns the rest. -/
def dropIntentLead (s : List Char) : Option (List Char) :=
  match dropCI ("i").toList s with
  | none => none
  | some r1 =>
    let n1 := countWhile isPyWs r1
    if n1 = 0 then none
    else
      match matchFirstCI [("want").toList, ("need").toList] (r1.drop n1) with
      | none => none
      | some (_, r2) =>
        let n2 := countWhile isPyWs r2
        if n2 = 0 then none
        else
          match dropCI ("to").toList (r2.drop n2) with
          | none => none
          | some r3 =>
            let n3 := countWhile isPyWs r3
            if n3 = 0 then none else some (r3.drop n3)

/-- The verbs of `_ACTION_START_RE` / `_ACTION_CLAUSE_RE`. -/
def actionVerbs : List (List Char) :=
  ["change", "update", "modify", "refactor", "improve", "fix", "rename", "move",
   "set", "switch", "use", "call"].map String.toList

/-- `_ACTION_START_RE.match(s)` (text_cleaner.py lines 154-158):
`^(?:i\s+(?:want|need)\s+to\s+)?(?:change|update|…|call)\b`. -/
def actionStartMatches (s : List Char) : Bool :=
  (match dropIntentLead s with
   | some r => (matchWordAlt actionVerbs r).isSome
   | none => false)
  || (matchWordAlt actionVerbs s).isSome

/-- Trailing `(.+?)([.!?]?)$`: the final punctuation group captures the last
character only when something remains for the lazy `.+?`. -/
def splitTrailPunct (r : List Char) : List Char × List Char :=
  if r.length ≥ 2 then
    match r.getLast? with
    | some c => if c = '.' || c = '!' || c = '?' then (r.dropLast, [c]) else (r, [])
    | none => (r, [])
  else (r, [])

/-- Try, in order, each verb alternative followed by `\s+` (at least one
whitespace, consumed greedily), handing the rest to `cont`. -/
def tryVerbThenWs (verbs : List (List Char)) (t : List Char)
    (cont : List Char → Option (List Char × List Char)) : Option (List Char × List Char) :=
  match verbs with
  | [] => none
  | v :: vs =>
    let attempt :=
      match dropCI v t with
      | some r =>
        let n := countWhile isPyWs r
        if n ≥ 1 then cont (r.drop n) else none
      | none => none
    match attempt with
    | some res => some res
    | none => tryVerbThenWs vs t cont

/-- The continuation of `_VERB_TO_TARGET` after `verb\s+`:
`(?:it|this|that|the\s+\w+)?\s*to\s+(.+?)([.!?]?)$`.  Returns
`(group2, punctuation)`. -/
def verbToTargetCont (r : List Char) : Option (List Char × List Char) :=
  let tryTo : List Char → Option (List Char × List Char) := fun r' =>
    let m := countWhile isPyWs r'
    match dropCI ("to").toList (r'.drop m) with
    | none => none
    | some r3 =>
      let k := countWhile isPyWs r3
      if k = 0 then none
      else
        let remainder := r3.drop k
        if remainder.isEmpty then
          if k ≥ 2 then some (r3.drop (k - 1), []) else none
        else some (splitTrailPunct remainder)
  let viaNoun :=
    match matchFirstCI [("it").toList, ("this").toList, ("that").toList] r with
    | some (_, r1) =>
      match tryTo r1 with
      | some res => some res
      | none => none
    | none => none
  match viaNoun with
  | some res => some res
  | none =>
    let viaThe :=
      match dropCI ("the").toList r with
      | some r1 =>
        let n := countWhile isPyWs r1
        if n = 0 then none
        else
          let w := (r1.drop n).takeWhile isWordChar
          if w.isEmpty then none else tryTo ((r1.drop n).drop w.length)
      | none => none
    match viaThe with
    | some res => some res
    | none => tryTo r

/-- Scan for the lazy `.*?\b(verbs)\b\s+` head and run the continuation;
returns the continuation's `(group2, punctuation)` (the matched portion
always reaches the end of the string, so group 1 is recovered from the
lengths). -/
def verbScanAux (verbs : List (List Char))
    (cont : List Char → Option (List Char × List Char)) :
    Nat → Option Char → List Char → Option (List Char × List Char)
  | 0, _, _ => none
  | fuel + 1, p1, t =>
    let here := if prevNonWord p1 then tryVerbThenWs verbs t cont else none
    match here with
    | some res => some res
    | none =>
      match t with
      | [] => none
      | c :: rest => verbScanAux verbs cont fuel (some c) rest

/-- `_VERB_TO_TARGET.match(previous)` (text_cleaner.py lines 50-55):
`^(.*?\b(?:change|set|switch|rename|call|use|move)\b\s+`
`(?:it|this|that|the\s+\w+)?\s*to\s+)(.+?)([.!?]?)$`.
Returns `(group1, group2, punctuation)`. -/
def verbToTarget (s : List Char) : Option (List Char × List Char × List Char) :=
  let verbs := ["change", "set", "switch", "rename", "call", "use", "move"].map String.toList
  match verbScanAux verbs verbToTargetCont s.length none s with
  | some (g2, punct) => some (s.take (s.length - g2.length - punct.length), g2, punct)
  | none => none

/-- Characters of `[A-Za-z0-9_.:-]` (the trailing-token class). -/
def isTrailTokenChar (c : Char) : Bool :=
  c.isAlphanum || c = '_' || c = '.' || c = ':' || c = '-'

/-- The continuation of `_VERB_TRAILING_TOKEN` after `verb\s+`:
`(?:the\s+\w+\s+)?([A-Za-z0-9_.:-]+)([.!?]?)$`. -/
def verbTrailingTokenCont (r : List Char) : Option (List Char × List Char) :=
  let tryToken : List Char → Option (List Char × List Char) := fun r' =>
    let split :=
      match r'.getLast? with
      | some c => if c = '!' || c = '?' then (r'.dropLast, [c]) else (r', ([] : List Char))
      | none => (r', [])
    if !split.1.isEmpty && split.1.all isTrailTokenChar then some split else none
  let viaThe :=
    match dropCI ("the").toList r with
    | some r1 =>
      let n := countWhile isPyWs r1
      if n = 0 then none
      else
        let w := (r1.drop n).takeWhile isWordChar
        if w.isEmpty then none
        else
          let r2 := (r1.drop n).drop w.length
          let m := countWhile isPyWs r2
          if m = 0 then none else tryToken (r2.drop m)
    | none => none
  match viaThe with
  | some res => some res
  | none => tryToken r

/-- `_VERB_TRAILING_TOKEN.match(previous)` (text_cleaner.py lines 56-61):
`^(.*?\b(?:call|name|rename|select|choose)\b\s+(?:the\s+\w+\s+)?)`
`([A-Za-z0-9_.:-]+)([.!?]?)$`.  Returns `(group1, token, punctuation)`. -/
def verbTrailingToken (s : List Char) : Option (List Char × List Char × List Char) :=
  let verbs := ["call", "name", "rename", "select", "choose"].map String.toList
  match verbScanAux verbs verbTrailingTokenCont s.length none s with
  | some (g2, punct) => some (s.take (s.length - g2.length - punct.length), g2, punct)
  | none => none

/-- `_VERB_OPEN_END.match(previous)` (text_cleaner.py lines 62-65):
`^(.*?\b(?:use|call|name|rename|set|switch|move)\b)\s*$`.
Returns group 1 (everything through the verb). -/
def verbOpenEndAux : Nat → Option Char → List Char → List Char → Option (List Char)
  | 0, _, _, _ => none
  | fuel + 1, p1, s, t =>
    let verbs := ["use", "call", "name", "rename", "set", "switch", "move"].map String.toList
    let here :=
      if prevNonWord p1 then
        match matchWordAlt verbs t with
        | some (_, r) => if r.all isPyWs then some (s.take (s.length - r.length)) else none
        | none => none
      else none
    match here with
    | some res => some res
    | none =>
      match t with
      | [] => none
      | c :: rest => verbOpenEndAux fuel (some c) s rest

/-- `_VERB_OPEN_END.match(previous)` as `some group1`. -/
def verbOpenEnd (s : List Char) : Option (List Char) :=
  verbOpenEndAux s.length none s s

/-- `_ACTION_CLAUSE_RE.match(previous)` (text_cleaner.py lines 145-149):
`^(?P<head>.*?)(?P<clause>(?:i\s+(?:want|need)\s+to\s+)?(?:change|…|call)\b.+)$`.
There is no word boundary before the clause, so it may start mid-word.
Returns `(head, clause)`. -/
def actionClauseAux : Nat → List Char → List Char → Option (List Char × List Char)
  | 0, _, _ => none
  | fuel + 1, headRev, t =>
    let okHere :=
      let viaIntent :=
        match dropIntentLead t with
        | some r =>
          match matchWordAlt actionVerbs r with
          | some (_, rest) => !rest.isEmpty
          | none => false
        | none => false
      let direct :=
        match matchWordAlt actionVerbs t with
        | some (_, rest) => !rest.isEmpty
        | none => false
      viaIntent || direct
    if okHere then some (headRev.reverse, t)
    else
      match t with
      | [] => none
      | c :: rest => actionClauseAux fuel (c :: headRev) rest

/-- `_ACTION_CLAUSE_RE.match(previous)` as `(head, clause)`. -/
def actionClause (s : List Char) : Option (List Char × List Char) :=
  actionClauseAux (s.length + 1) [] s

/-- `_INTENT_PREFIX_RE.match(clause)` (text_cleaner.py lines 150-153):
`^(?P<intent>i\s+(?:want|need)\s+to)\s+(?P<rest>.+)$`; returns the intent
group (without its trailing whitespace). -/
def intentLeadMatch (s : List Char) : Option (List Char) :=
  match dropCI ("i").toList s with
  | none => none
  | some r1 =>
    let n1 := countWhile isPyWs r1
    if n1 = 0 then none
    else
      match matchFirstCI [("want").toList, ("need").toList] (r1.drop n1) with
      | none => none
      | some (_, r2) =>
        let n2 := countWhile isPyWs r2
        if n2 = 0 then none
        else
          match dropCI ("to").toList (r2.drop n2) with
          | none => none
          | some r3 =>
            let n3 := countWhile isPyWs r3
            if n3 ≥ 1 && r3.length ≥ 2 then some (s.take (s.length - r3.length))
            else none

/-- `TextCleaner._should_replace_previous` (text_cleaner.py lines
390-403). -/
def should_replace_previous (cue previous replacement : List Char) : Bool :=
  if STRONG_REPLACE_CUES.contains cue then true
  else if WEAK_REPLACE_CUES.contains cue then
    ((verbToTarget previous).isSome || (verbTrailingToken previous).isSome
        || actionStartMatches previous)
      && (pySplit replacement).length ≤ 10
  else false

/-- `TextCleaner._ensure_terminal_punctuation` (text_cleaner.py lines
405-412). -/
def ensure_terminal_punctuation (text : List Char) : List Char :=
  let t := pyStrip text
  if t.isEmpty then []
  else
    match t.getLast? with
    | some c => if c = '.' || c = '!' || c = '?' then t else t ++ [('.' : Char)]
    | none => []

end VoiceFlow

namespace VoiceFlow

/-- Python `sep.join(parts)`. -/
def joinWith (sep : List Char) : List (List Char) → List Char
  | [] => []
  | [x] => x
  | x :: rest => x ++ sep ++ joinWith sep rest

/-- Step of `_VERB_TARGET_OF_APP`: parse the mandatory ending
`(\s+of\s+the\s+app)([.!?]?)$` from the right of `s`.  Returns
`(headLen, punct)` where `headLen` is the length of the text before the
suffix group (whose whitespace run is taken maximally, as the lazy target
forces). -/
def ofTheAppEnding (s : List Char) : Option (Nat × List Char) :=
  let split :=
    match s.getLast? with
    | some c => if c = '.' || c = '!' || c = '?' then (s.dropLast, [c]) else (s, ([] : List Char))
    | none => (s, [])
  let rest0 := split.1
  let rev := rest0.reverse
  match dropCI ("ppa").toList rev with
  | none => none
  | some a =>
    let n1 := countWhile isPyWs a
    if n1 = 0 then none
    else
      match dropCI ("eht").toList (a.drop n1) with
      | none => none
      | some b =>
        let n2 := countWhile isPyWs b
        if n2 = 0 then none
        else
          match dropCI ("fo").toList (b.drop n2) with
          | none => none
          | some c =>
            let n3 := countWhile isPyWs c
            if n3 = 0 then none
            else some (c.length - n3, split.2)

/-- The verbs of `_VERB_TARGET_OF_APP`. -/
def ofAppVerbs : List (List Char) :=
  ["change", "update", "modify", "refactor", "improve", "fix"].map String.toList

/-- Lazy scan of `^(.*?\bverb\b\s+)` inside the head: earliest verb with a
preceding word boundary and at least one following whitespace.  Returns the
length of group 1 (through the whitespace run). -/
def ofAppHeadScan : Nat → Option Char → Nat → List Char → Option Nat
  | 0, _, _, _ => none
  | fuel + 1, p1, pos, t =>
    let here :=
      if prevNonWord p1 then
        match matchWordAlt ofAppVerbs t with
        | some (v, r) =>
          let n := countWhile isPyWs r
          if n ≥ 1 then some (pos + v.length + n) else none
        | none => none
      else none
    match here with
    | some res => some res
    | none =>
      match t with
      | [] => none
      | c :: rest => ofAppHeadScan fuel (some c) (pos + 1) rest

/-- Degenerate `_VERB_TARGET_OF_APP` corner: the text between the verb and
`of the app` is a single whitespace run (the target then matches one
whitespace character).  Checks that the head ends exactly with a verb. -/
def ofAppVerbAtEnd : Nat → Option Char → List Char → Bool
  | 0, _, _ => false
  | fuel + 1, p1, t =>
    (if prevNonWord p1 then
      match matchWordAlt ofAppVerbs t with
      | some (_, r) => r.isEmpty
      | none => false
     else false)
    || (match t with
        | [] => false
        | c :: rest => ofAppVerbAtEnd fuel (some c) rest)

/-- `_VERB_TARGET_OF_APP.match(previous)` (text_cleaner.py lines 44-49):
`^(.*?\b(?:change|update|modify|refactor|improve|fix)\b\s+)`
`(?:the\s+)?(.+?)(\s+of\s+the\s+app)([.!?]?)$`.
Returns `(group1, suffixGroup, punctuation)` (the target group is never
used by the merge).  The optional `the\s+` belongs to no group.  When the
only material between the verb and `of the app` is one whitespace run of
length ≥ 3 the regex still matches with a whitespace target (handled here
for the article-free form). -/
def verbTargetOfApp (s : List Char) : Option (List Char × List Char × List Char) :=
  match ofTheAppEnding s with
  | none => none
  | some (headLen, punct) =>
    let head := s.take headLen
    let suffix := (s.drop headLen).take (s.length - punct.length - headLen)
    match ofAppHeadScan head.length none 0 head with
    | some g1Len =>
      let afterVerbWs := head.drop g1Len
      -- greedy `(?:the\s+)?` then lazy nonempty target: a match exists iff
      -- something remains after the verb's whitespace (see the head scan).
      if afterVerbWs.isEmpty then none
      else some (head.take g1Len, suffix, punct)
    | none =>
      -- degenerate whitespace-target corner: head ends directly in a verb
      -- and the following run (all in `suffix`) has length ≥ 3.
      let runLen := countWhile isPyWs suffix
      if ofAppVerbAtEnd (head.length + 1) none head && runLen ≥ 3 then
        some (head ++ suffix.take (runLen - 2), suffix.drop (runLen - 1), punct)
      else none

/-- The fixpoint loop of `_merge_with_previous` that strips leading
correction cues from the replacement (text_cleaner.py lines 419-423). -/
def stripCuesLoop : Nat → List Char → List Char
  | 0, r => r
  | fuel + 1, r =>
    let sub := match leadingCorrection r with | some (_, e) => r.drop e | none => r
    let stripped := pyStripChars (" ,.-").toList sub
    if stripped = r then r else stripCuesLoop fuel stripped

/-- `re.match(r"^(the|a|an)\b", rep, re.IGNORECASE)` (text_cleaner.py line
433). -/
def articleStart (s : List Char) : Bool :=
  (matchWordAlt [("the").toList, ("a").toList, ("an").toList] s).isSome

/-- Python `str.endswith(pat)` (case-sensitive literal suffix). -/
def endsWithLit (pat s : List Char) : Bool := pat.isSuffixOf s

/-- Python `pat in s` (case-sensitive substring containment). -/
def isInfixLit (pat : List Char) : List Char → Bool
  | [] => pat.isEmpty
  | c :: rest => pat.isPrefixOf (c :: rest) || isInfixLit pat rest

/-- `TextCleaner._merge_with_previous` (text_cleaner.py lines 414-471). -/
def merge_with_previous (previous replacement : List Char) : List Char :=
  let previous := pyStrip (stripLeadingDiscourse previous)
  let replacement0 := pyStrip (stripLeadingDiscourse replacement)
  let replacement1 := pyStripCharsRight (".!?").toList replacement0
  let replacement := stripCuesLoop (replacement1.length + 1) replacement1
  -- Pattern: "... change the functionality of the app." + "modularity of the app"
  let viaOfApp : Option (List Char) :=
    match verbTargetOfApp previous with
    | some (g1, suffix, punct) =>
      let rep :=
        if endsWithLit ("of the app").toList (lowerStr replacement) then
          pyStrip (replacement.take (replacement.length - 10))
        else replacement
      if rep.isEmpty then none
      else
        let article := if articleStart rep then [] else ("the ").toList
        let punct' := if punct.isEmpty then (".").toList else punct
        some (g1 ++ article ++ rep ++ suffix ++ punct')
    | none => none
  match viaOfApp with
  | some res => res
  | none =>
    -- Pattern: "... change it to X" + "Y"
    let viaTo : Option (List Char) :=
      match verbToTarget previous with
      | some (g1, _, punct) =>
        if replacement.isEmpty then none
        else
          let punct' := if punct.isEmpty then (".").toList else punct
          some (g1 ++ replacement ++ punct')
      | none => none
    match viaTo with
    | some res => res
    | none =>
      let viaTrail : Option (List Char) :=
        match verbTrailingToken previous with
        | some (g1, _, punct) =>
          if replacement.isEmpty then none
          else
            let punct' := if punct.isEmpty then (".").toList else punct
            some (g1 ++ replacement ++ punct')
        | none => none
      match viaTrail with
      | some res => res
      | none =>
        let viaOpen : Option (List Char) :=
          match verbOpenEnd previous with
          | some g1 =>
            if replacement.isEmpty then none
            else some (pyStrip g1 ++ [(' ' : Char)] ++ replacement ++ (".").toList)
          | none => none
        match viaOpen with
        | some res => res
        | none =>
          -- Action-style corrections preserve the intent head.
          let viaAction : Option (List Char) :=
            match actionClause previous with
            | some (head, clause) =>
              if actionStartMatches replacement then
                let head := pyStrip head
                let clause := pyStripCharsRight (".!?").toList (pyStrip clause)
                let replacementClause := pyStripCharsRight (".!?").toList replacement
                let replacementClause :=
                  match intentLeadMatch clause with
                  | some intent =>
                    if (intentLeadMatch replacementClause).isSome then replacementClause
                    else pyStrip intent ++ [(' ' : Char)] ++ replacementClause
                  | none => replacementClause
                some (pyStrip (head ++ [(' ' : Char)] ++ replacementClause) ++ (".").toList)
              else none
            | none => none
          match viaAction with
          | some res => res
          | none => ensure_terminal_punctuation replacement

/-- `TextCleaner._apply_self_corrections` (text_cleaner.py lines 351-383). -/
def apply_self_corrections (text : List Char) : List Char :=
  let sentences := splitAfter ['.', '!', '?'] (pyStrip text)
  let out := sentences.foldl
    (fun (out : List (List Char)) sentence =>
      let sentence := pyStrip sentence
      if sentence.isEmpty then out
      else
        match inlineCorrection sentence with
        | some (pre, cueText, repl) =>
          let pre := pyStrip pre
          let cue := normalize_cue cueText
          let replacement := pyStripChars (" ,.-").toList repl
          if should_replace_previous cue pre replacement then
            out ++ [merge_with_previous pre replacement]
          else
            out ++ [ensure_terminal_punctuation pre, ensure_terminal_punctuation replacement]
        | none =>
          match leadingCorrection sentence with
          | some (cueText, matchEnd) =>
            let cue := normalize_cue cueText
            let replacement := pyStripChars (" ,.-").toList (sentence.drop matchEnd)
            if replacement.isEmpty then out
            else
              match out.getLast? with
              | some prev =>
                if should_replace_previous cue prev replacement then
                  out.dropLast ++ [merge_with_previous prev replacement]
                else out ++ [ensure_terminal_punctuation replacement]
              | none => out ++ [ensure_terminal_punctuation replacement]
          | none => out ++ [sentence])
    []
  joinWith (" ").toList out

end VoiceFlow

namespace VoiceFlow

/-! ### `src/app/transcription/text_cleaner.py` — clause / sentence passes -/

/-- `TextCleaner._collapse_repeated_clauses` (text_cleaner.py lines
495-515): split on `(?<=[.!?;:])\s+`, drop a clause equal to the previous
normalized clause (≥ 3 words) or a ≥ 6-word suffix of it. -/
def collapse_repeated_clauses (text : List Char) : List Char :=
  let chunks := splitAfter ['.', '!', '?', ';', ':'] (pyStrip text)
  let res := chunks.foldl
    (fun (acc : List (List Char) × List Char) chunk =>
      let out := acc.1
      let prevNorm := acc.2
      let chunk := pyStrip chunk
      if chunk.isEmpty then (out, prevNorm)
      else
        let body := pyStrip (pyStripCharsRight (".!?;:").toList chunk)
        if body.isEmpty then (out, prevNorm)
        else
          let norm := lowerStr (pyStrip (collapseWsRuns body))
          let wc := (pySplit norm).length
          if norm = prevNorm && wc ≥ 3 then (out, prevNorm)
          else if !prevNorm.isEmpty && wc ≥ 6 && endsWithLit norm prevNorm then (out, prevNorm)
          else (out ++ [chunk], norm))
    ([], [])
  if res.1.isEmpty then text else joinWith (" ").toList res.1

/-- The edge-punctuation class of `_TRIM_EDGE_PUNCT_RE` `[\s,;:.!?-]`. -/
def isEdgePunct (c : Char) : Bool :=
  isPyWs c || c = ',' || c = ';' || c = ':' || c = '.' || c = '!' || c = '?' || c = '-'

/-- `TextCleaner._normalize_fragment` (text_cleaner.py lines 650-653):
lower, trim edge punctuation runs, collapse whitespace, strip. -/
def normalize_fragment (text : List Char) : List Char :=
  let lowered := lowerStr text
  let stripped := ((lowered.dropWhile isEdgePunct).reverse.dropWhile isEdgePunct).reverse
  pyStrip (collapseWsRuns stripped)

/-- `TextCleaner._dedupe_adjacent_sentences` (text_cleaner.py lines
517-532). -/
def dedupe_adjacent_sentences (text : List Char) : List Char :=
  let chunks := ((splitAfter ['.', '!', '?'] (pyStrip text)).map pyStrip).filter
    (fun c => !c.isEmpty)
  if chunks.length < 2 then text
  else
    let res := chunks.foldl
      (fun (acc : List (List Char) × List Char) chunk =>
        let out := acc.1
        let prevNorm := acc.2
        let norm := normalize_fragment chunk
        if !norm.isEmpty && norm = prevNorm && (pySplit norm).length ≥ 6 then (out, prevNorm)
        else (out ++ [chunk], norm))
      ([], [])
    if res.1.isEmpty then text else joinWith (" ").toList res.1

/-- `_LOW_INFO_FRAGMENT_RE` (text_cleaner.py lines 198-204): the normalized
fragment must equal one of these (already lower-cased) alternatives. -/
def LOW_INFO_FRAGMENTS : List (List Char) :=
  ["okay", "ok", "yeah", "right", "you know", "i mean", "let's see", "lets see",
   "we can see", "you can see", "we'll see", "well see", "i guess",
   "i don't know", "i do not know"].map String.toList

/-- `TextCleaner._is_low_info_fragment` (text_cleaner.py lines 655-657). -/
def is_low_info_fragment (normalized : List Char) : Bool :=
  LOW_INFO_FRAGMENTS.contains normalized

/-- `TextCleaner._prune_low_information_fragments` (text_cleaner.py lines
624-648): split on `(?<=[,.!?;:])\s+`, drop low-information fragments and
immediate duplicates when some informative fragment exists. -/
def prune_low_information_fragments (text : List Char) : List Char :=
  let chunks := ((splitAfter [',', '.', '!', '?', ';', ':'] (pyStrip text)).map pyStrip).filter
    (fun c => !c.isEmpty)
  if chunks.length < 2 then text
  else
    let normalized := chunks.map normalize_fragment
    let nonLow := (normalized.filter (fun n => !is_low_info_fragment n)).length
    if nonLow = 0 then chunks.headD []
    else
      let res := (chunks.zip normalized).foldl
        (fun (acc : List (List Char) × List Char) p =>
          let out := acc.1
          let prevNorm := acc.2
          if p.2.isEmpty then (out, prevNorm)
          else if is_low_info_fragment p.2 then (out, prevNorm)
          else if p.2 = prevNorm then (out, prevNorm)
          else (out ++ [p.1], p.2))
        ([], [])
      if res.1.isEmpty then chunks.headD [] else joinWith (" ").toList res.1

/-! ### `src/app/transcription/text_cleaner.py` — readability pass -/

/-- The conjunctions of `_TRAILING_CONJUNCTION_RE` (text_cleaner.py lines
211-214). -/
def TRAILING_CONJ : List (List Char) :=
  ["and", "or", "but", "so", "because", "then"].map String.toList

/-- `_TRAILING_CONJUNCTION_RE.sub("", s)`:
`\b(?:and|or|but|so|because|then)\b\s*$` (the trailing word together with
the whitespace after it; the word must be a whole maximal word run). -/
def trimTrailingConjunction (s : List Char) : List Char :=
  let wsn := countWhile isPyWs s.reverse
  let core := s.take (s.length - wsn)
  let run := (core.reverse.takeWhile isWordChar).reverse
  if !run.isEmpty && TRAILING_CONJ.contains (lowerStr run) then
    core.take (core.length - run.length)
  else s

/-- The lookahead `(?:The|Then|And|But)\s+[A-Z]?[a-z]` of
`_MISSING_SENTENCE_BREAK_RE` (case-sensitive). -/
def lookSentenceHead (r : List Char) : Bool :=
  [("The").toList, ("Then").toList, ("And").toList, ("But").toList].any fun w =>
    match dropLit w r with
    | none => false
    | some r1 =>
      let m := countWhile isPyWs r1
      if m = 0 then false
      else
        match r1.drop m with
        | c :: d :: _ => (c.isUpper && d.isLower) || c.isLower
        | [c] => c.isLower
        | [] => false

/-- `_MISSING_SENTENCE_BREAK_RE.sub(". ", s)` (text_cleaner.py lines
215-217): `(?<=[a-z0-9])\s+(?=(?:The|Then|And|But)\s+[A-Z]?[a-z])`
(only the whitespace run is consumed). -/
def missingSentenceBreakMatcher : Matcher := fun _ p1 s =>
  match p1 with
  | some pc =>
    if pc.isLower || pc.isDigit then
      let n := countWhile isPyWs s
      if n = 0 then none
      else if lookSentenceHead (s.drop n) then some ((". ").toList, n) else none
    else none
  | none => none

/-- Body search of `_EMBEDDED_SHOULD_QUESTION_RE`: the lazy `(.+?)\s+`
before the lookahead `(?=keep it as a question\b)`.  Returns
`(bodyLen, wsLen)` for the earliest split. -/
def embeddedShouldBody : Nat → Nat → List Char → Option (Nat × Nat)
  | 0, _, _ => none
  | fuel + 1, k, t =>
    match t with
    | [] => none
    | _ :: rest =>
      let n := countWhile isPyWs rest
      let hit :=
        if n = 0 then none
        else
          match dropCI ("keep it as a question").toList (rest.drop n) with
          | some r2 => if boundaryAfter r2 then some (k + 1, n) else none
          | none => none
      match hit with
      | some res => some res
      | none => embeddedShouldBody fuel (k + 1) rest

/-- `_EMBEDDED_SHOULD_QUESTION_RE.sub(...)` (text_cleaner.py lines 252-255,
665-668): `\bif\s+i\s+ask\s+should\s+(?P<body>.+?)\s+(?=keep it as a
question\b)` replaced by `if I ask, should {body.strip(" ,.;:")}? `. -/
def embeddedShouldMatcher : Matcher := fun _ p1 s =>
  if prevNonWord p1 then
    match dropCI ("if").toList s with
    | none => none
    | some r1 =>
      let n1 := countWhile isPyWs r1
      if n1 = 0 then none
      else
        match dropCI ("i").toList (r1.drop n1) with
        | none => none
        | some r2 =>
          let n2 := countWhile isPyWs r2
          if n2 = 0 then none
          else
            match dropCI ("ask").toList (r2.drop n2) with
            | none => none
            | some r3 =>
              let n3 := countWhile isPyWs r3
              if n3 = 0 then none
              else
                match dropCI ("should").toList (r3.drop n3) with
                | none => none
                | some r4 =>
                  let n4 := countWhile isPyWs r4
                  if n4 = 0 then none
                  else
                    let bodyStart := r4.drop n4
                    match embeddedShouldBody bodyStart.length 0 bodyStart with
                    | none => none
                    | some (bodyLen, wsLen) =>
                      let body := bodyStart.take bodyLen
                      let consumed := (s.length - bodyStart.length) + bodyLen + wsLen
                      some (("if I ask, should ").toList
                          ++ pyStripChars (" ,.;:").toList body ++ ("? ").toList,
                        consumed)
  else none

/-- `_I_CONTRACTION_RE.sub("I", s)` (text_cleaner.py line 207):
`\bi(?=('|’)(m|d|ll|ve|re|s)\b)`. -/
def iContractionMatcher : Matcher := fun _ p1 s =>
  if prevNonWord p1 then
    match s with
    | c :: a :: rest2 =>
      if c.toLower = 'i' && (a = '\'' || a = Char.ofNat 8217) then
        match matchWordAlt
            [("m").toList, ("d").toList, ("ll").toList, ("ve").toList,
             ("re").toList, ("s").toList] rest2 with
        | some _ => some (("I").toList, 1)
        | none => none
      else none
    | _ => none
  else none

/-- `_STANDALONE_I_RE.sub("I", s)` (text_cleaner.py line 208): `\bi\b`. -/
def standaloneIMatcher : Matcher := fun _ p1 s =>
  if prevNonWord p1 then
    match s with
    | c :: rest => if c.toLower = 'i' && boundaryAfter rest then some (("I").toList, 1) else none
    | [] => none
  else none

/-- `_LEADING_LOWER_RE.sub(upper, s)` (text_cleaner.py lines 206, 671):
`(^|(?<=[.!?]\s))([a-z])` with the letter upper-cased. -/
def leadingLowerMatcher : Matcher := fun p2 p1 s =>
  match s with
  | c :: _ =>
    if c.isLower then
      let ok := match p1, p2 with
        | none, _ => true
        | some w, some q => isPyWs w && (q = '.' || q = '!' || q = '?')
        | some _, none => false
      if ok then some ([c.toUpper], 1) else none
    else none
  | [] => none

/-- `_TERMINAL_PUNCT_RE.search(s)` (text_cleaner.py line 209):
`[.!?]["')\]]?$`. -/
def has_terminal_punct (s : List Char) : Bool :=
  match s.reverse with
  | c :: rest =>
    (c = '.' || c = '!' || c = '?')
      || ((c = '"' || c = '\'' || c = ')' || c = ']')
        && (match rest with | d :: _ => d = '.' || d = '!' || d = '?' | [] => false))
  | [] => false

/-- `TextCleaner._normalize_readability` (text_cleaner.py lines 659-676). -/
def normalize_readability (text : List Char) : List Char :=
  let t := pyStrip text
  let t := pyStripCharsRight (" ,;:").toList t
  let t := pyStripCharsRight (" ,;:").toList (trimTrailingConjunction t)
  let t := gsub missingSentenceBreakMatcher t
  let t := gsub embeddedShouldMatcher t
  let t := gsub iContractionMatcher t
  let t := gsub standaloneIMatcher t
  let t := gsub leadingLowerMatcher t
  if (pySplit t).length ≥ 8 && !has_terminal_punct (pyStrip t) then
    pyStripRight t ++ (".").toList
  else t

/-! ### `src/app/transcription/text_cleaner.py` — final whitespace fixes -/

/-- `re.sub(r'\s{2,}', ' ', s)`. -/
def squeezeWsMatcher : Matcher := fun _ _ s =>
  let n := countWhile isPyWs s
  if n ≥ 2 then some ((" ").toList, n) else none

/-- `re.sub(r'\s+([.,!?;:])', r'\1', s)`. -/
def wsBeforePunctMatcher : Matcher := fun _ _ s =>
  let n := countWhile isPyWs s
  if n ≥ 1 then
    match s.drop n with
    | c :: _ =>
      if c = '.' || c = ',' || c = '!' || c = '?' || c = ';' || c = ':' then
        some ([c], n + 1)
      else none
    | [] => none
  else none

/-- `re.sub(r',([.!?])', r'\1', s)`. -/
def commaBeforeTerminalMatcher : Matcher := fun _ _ s =>
  match s with
  | ',' :: c :: _ => if c = '.' || c = '!' || c = '?' then some ([c], 2) else none
  | _ => none

/-- `re.sub(r',\s*$', '', s)`. -/
def stripTrailingComma (s : List Char) : List Char :=
  let wsn := countWhile isPyWs s.reverse
  match (s.reverse.drop wsn) with
  | ',' :: _ => s.take (s.length - wsn - 1)
  | _ => s

/-- `re.sub(r'^[,\s]+', '', s)`. -/
def stripLeadingCommaWs (s : List Char) : List Char :=
  s.dropWhile (fun c => c = ',' || isPyWs c)

end VoiceFlow

namespace VoiceFlow

/-! ### `src/app/transcription/text_cleaner.py` — file / symbol tagging -/

/-- `_FILE_EXTS` (text_cleaner.py lines 66-104), in source order (the order
of the regex alternation built from it). -/
def FILE_EXTS : List (List Char) :=
  ["py", "js", "jsx", "ts", "tsx", "java", "go", "rs", "rb", "php", "swift",
   "kt", "c", "h", "hpp", "cpp", "m", "mm", "cs", "json", "yaml", "yml",
   "toml", "ini", "env", "md", "txt", "sql", "sh", "bash", "zsh", "html",
   "htm", "css", "scss", "vue", "dmg"].map String.toList

/-- Lookbehind `(?<![\w@])`. -/
def prevNonWordNonTag : Option Char → Bool
  | none => true
  | some c => !isWordChar c && c ≠ '@'

/-- Optional `(?:\s+file\b)?`: number of extra characters consumed. -/
def optWsFile (r : List Char) : Nat :=
  let n := countWhile isPyWs r
  if n = 0 then 0
  else
    match dropCI ("file").toList (r.drop n) with
    | some r2 => if boundarySeam 'e' r2 then n + 4 else 0
    | none => 0

/-- `\s+dot\s+(ext)\b(?:\s+file\b)?` after a spoken base; returns the
consumed length from `r` and the extension pattern (lower case). -/
def spokenDotEnding (r : List Char) : Option (Nat × List Char) :=
  let n1 := countWhile isPyWs r
  if n1 = 0 then none
  else
    match dropCI ("dot").toList (r.drop n1) with
    | none => none
    | some r2 =>
      let n2 := countWhile isPyWs r2
      if n2 = 0 then none
      else
        match matchWordAlt FILE_EXTS (r2.drop n2) with
        | none => none
        | some (ext, r3) =>
          some (n1 + 3 + n2 + ext.length + optWsFile r3, ext)

/-- One `\s+(?:underscore|under score|dash|hyphen)\s+[A-Za-z0-9][A-Za-z0-9_-]*`
group of `_SPOKEN_COMPLEX_FILE_RE`; returns the consumed length. -/
def spokenSepGroup (r : List Char) : Option Nat :=
  let n1 := countWhile isPyWs r
  if n1 = 0 then none
  else
    match matchFirstCI
        [("underscore").toList, ("under score").toList, ("dash").toList,
         ("hyphen").toList] (r.drop n1) with
    | none => none
    | some (p, r2) =>
      let n2 := countWhile isPyWs r2
      if n2 = 0 then none
      else
        match r2.drop n2 with
        | c :: rest =>
          if c.isAlphanum then some (n1 + p.length + n2 + 1 + (rest.takeWhile isBaseChar).length)
          else none
        | [] => none

/-- Greedy `+` collection of separator groups; returns consumed lengths. -/
def spokenSepGroups : Nat → List Char → List Nat
  | 0, _ => []
  | fuel + 1, r =>
    match spokenSepGroup r with
    | some k => k :: spokenSepGroups fuel (r.drop k)
    | none => []

/-- Base transformation of `_replace_spoken_complex_file` (text_cleaner.py
lines 540-547): spoken separators to `_`/`-`, remaining whitespace to `_`. -/
def spokenComplexBase (base : List Char) : List Char :=
  let t := gsub (fun _ _ s =>
    let n1 := countWhile isPyWs s
    if n1 = 0 then none
    else
      match matchFirstCI [("underscore").toList, ("under score").toList] (s.drop n1) with
      | none => none
      | some (p, r2) =>
        let n2 := countWhile isPyWs r2
        if n2 = 0 then none else some (("_").toList, n1 + p.length + n2)) base
  let t := gsub (fun _ _ s =>
    let n1 := countWhile isPyWs s
    if n1 = 0 then none
    else
      match matchFirstCI [("dash").toList, ("hyphen").toList] (s.drop n1) with
      | none => none
      | some (p, r2) =>
        let n2 := countWhile isPyWs r2
        if n2 = 0 then none else some (("-").toList, n1 + p.length + n2)) t
  gsub (fun _ _ s =>
    let n := countWhile isPyWs s
    if n ≥ 1 then some (("_").toList, n) else none) t

/-- Retreat loop of `_SPOKEN_COMPLEX_FILE_RE`: try the ending after the
collected separator groups, dropping trailing groups while it fails
(regex backtracking of the greedy `+`; at least one group must remain). -/
def spokenComplexTry (s : List Char) (baseStart : Nat) :
    Nat → List Nat → Option (List Char × Nat)
  | 0, _ => none
  | _ + 1, [] => none
  | fuel + 1, groups =>
    let spanEnd := baseStart + groups.foldl (· + ·) 0
    match spokenDotEnding (s.drop spanEnd) with
    | some (endLen, ext) =>
      some (("@").toList ++ spokenComplexBase (s.take spanEnd) ++ (".").toList
          ++ lowerStr ext, spanEnd + endLen)
    | none => spokenComplexTry s baseStart fuel groups.dropLast

/-- `_SPOKEN_COMPLEX_FILE_RE.sub(_replace_spoken_complex_file, s)`
(text_cleaner.py lines 116-121, 540-547). -/
def spokenComplexFileMatcher : Matcher := fun _ p1 s =>
  if prevNonWordNonTag p1 then
    match s with
    | c :: rest =>
      if c.isAlphanum then
        let first := 1 + (rest.takeWhile isBaseChar).length
        let groups := spokenSepGroups s.length (s.drop first)
        if groups.isEmpty then none
        else
          match spokenComplexTry s first (groups.length + 1) groups with
          | some (rep, k) => some (rep, k)
          | none => none
      else none
    | [] => none
  else none

/-- `_SPOKEN_DOT_FILE_RE.sub(_replace_spoken_file, s)` (text_cleaner.py
lines 111-115, 534-538): `(?<![\w@])(base)\s+dot\s+(ext)\b(?:\s+file\b)?`
→ `@base.ext` (extension lower-cased). -/
def spokenDotFileMatcher : Matcher := fun _ p1 s =>
  if prevNonWordNonTag p1 then
    match s with
    | c :: rest =>
      if c.isAlphanum then
        let base := c :: rest.takeWhile isBaseChar
        match spokenDotEnding (s.drop base.length) with
        | some (endLen, ext) =>
          some (("@").toList ++ base ++ (".").toList ++ lowerStr ext,
            base.length + endLen)
        | none => none
      else none
    | [] => none
  else none

/-- `_FRAMEWORK_FILE_TOKENS` (text_cleaner.py lines 234-244). -/
def FRAMEWORK_FILE_TOKENS : List (List Char) :=
  ["next.js", "node.js", "react.js", "plate.js", "vue.js", "nuxt.js",
   "solid.js", "svelte.js", "express.js"].map String.toList

/-- Characters of the explicit file-name class: letters, digits, `_`, `.`,
slash, `-`. -/
def isExplicitFileChar (c : Char) : Bool :=
  c.isAlphanum || c = '_' || c = '.' || c = '/' || c = '-'

/-- Find, right-to-left inside the run, the last `.` whose suffix matches
`\.(?:EXTS)\b` against the full remaining input (the greedy name star of
`_EXPLICIT_FILE_RE`).  `i` counts down over candidate dot offsets. -/
def explicitSplitScan (s : List Char) : Nat → Option Nat
  | 0 => none
  | i + 1 =>
    (match s.drop i with
     | '.' :: after =>
       match matchWordAlt FILE_EXTS after with
       | some (ext, _) => some (i + 1 + ext.length)
       | none => none
     | _ => none)
    |>.orElse (fun _ => explicitSplitScan s i)

/-- `_EXPLICIT_FILE_RE.sub(_replace_explicit_file, s)` (text_cleaner.py
lines 106-110, 549-554): `(?<![\w@])(name…\.(EXTS))\b(?:\s+file\b)?`;
framework tokens stay untagged, everything else becomes `@name`; a spoken
` file` suffix is dropped either way. -/
def explicitFileMatcher : Matcher := fun _ p1 s =>
  if prevNonWordNonTag p1 then
    match s with
    | c :: rest =>
      if c.isAlphanum then
        let runLen := 1 + (rest.takeWhile isExplicitFileChar).length
        match explicitSplitScan s runLen with
        | some nameLen =>
          let name := s.take nameLen
          let k := nameLen + optWsFile (s.drop nameLen)
          if FRAMEWORK_FILE_TOKENS.contains (lowerStr name) then some (name, k)
          else some (("@").toList ++ name, k)
        | none => none
      else none
    | [] => none
  else none

/-- The blocked first words of `_BARE_FILE_RE`'s negative lookahead
(text_cleaner.py lines 123-127). -/
def BARE_FILE_START_BLOCK : List (List Char) :=
  ["a", "an", "the", "this", "that", "my", "your", "our", "their", "open",
   "close", "read", "write", "save", "edit", "modify", "update", "change",
   "fix", "move", "rename", "create", "delete", "remove", "use", "call",
   "set", "switch", "want", "need", "have", "is", "are", "was", "were",
   "please", "just", "to"].map String.toList

/-- `_GENERIC_FILE_BASES` (text_cleaner.py lines 133-144). -/
def GENERIC_FILE_BASES : List (List Char) :=
  ["a", "an", "the", "this", "that", "it", "my", "your", "our",
   "their"].map String.toList

/-- `\s+file\b` (the mandatory tail of `_BARE_FILE_RE`). -/
def wsFileTail (r : List Char) : Option Nat :=
  let n := countWhile isPyWs r
  if n = 0 then none
  else
    match dropCI ("file").toList (r.drop n) with
    | some r2 => if boundarySeam 'e' r2 then some (n + 4) else none
    | none => none

/-- `_BARE_FILE_RE.sub(_replace_bare_file, s)` (text_cleaner.py lines
128-132, 556-563): `(?<![@\w])(base)(?:\s+word)?\s+file\b`, skipping bases
that start with a blocked word; generic bases and bare extensions stay,
anything else becomes `@base` with inner whitespace as `_`. -/
def bareFileMatcher : Matcher := fun _ p1 s =>
  if prevNonWordNonTag p1 then
    match s with
    | c :: rest =>
      if c.isAlpha
          && !BARE_FILE_START_BLOCK.any (fun w =>
            match dropCI w s with
            | some r => boundarySeam (w.getLast?.getD ' ') r
            | none => false) then
        let w1 := c :: rest.takeWhile isBaseChar
        let afterW1 := s.drop w1.length
        let withSecond :=
          let n := countWhile isPyWs afterW1
          if n = 0 then none
          else
            match afterW1.drop n with
            | d :: r2 =>
              if isBaseChar d then
                let w2 := d :: r2.takeWhile isBaseChar
                match wsFileTail (afterW1.drop (n + w2.length)) with
                | some tail => some (w1.length + n + w2.length, tail)
                | none => none
              else none
            | [] => none
        let parsed :=
          match withSecond with
          | some res => some res
          | none =>
            match wsFileTail afterW1 with
            | some tail => some (w1.length, tail)
            | none => none
        match parsed with
        | some (baseLen, tailLen) =>
          let base := s.take baseLen
          let lowered := lowerStr base
          if GENERIC_FILE_BASES.contains lowered || FILE_EXTS.contains lowered then
            some (s.take (baseLen + tailLen), baseLen + tailLen)
          else
            some (("@").toList
                ++ gsub (fun _ _ t =>
                    let n := countWhile isPyWs t
                    if n ≥ 1 then some (("_").toList, n) else none) (pyStrip base),
              baseLen + tailLen)
        | none => none
      else none
    | [] => none
  else none

/-- `_DUPLICATE_FILE_TAG_RE.sub("@", s)`: `@\s*@\s*` → `@`. -/
def dupFileTagMatcher : Matcher := fun _ _ s =>
  match s with
  | '@' :: r =>
    let n1 := countWhile isPyWs r
    match r.drop n1 with
    | '@' :: r2 =>
      let n2 := countWhile isPyWs r2
      some (("@").toList, 1 + n1 + 1 + n2)
    | _ => none
  | _ => none

/-- `_LONE_EXTENSION_TAG_RE.sub(r"\g<ext>", s)` (text_cleaner.py line 210):
`(?<![\w])@(ext)\b` → the extension text. -/
def loneExtTagMatcher : Matcher := fun _ p1 s =>
  if prevNonWord p1 then
    match s with
    | '@' :: r =>
      match matchWordAlt FILE_EXTS r with
      | some (p, _) => some (r.take p.length, 1 + p.length)
      | none => none
    | _ => none
  else none

/-- `right = [A-Za-z0-9_-]+\.(?:EXTS)\b`: the right half of a fragmented
tag; returns the consumed length. -/
def fragmentedRight (r : List Char) : Option Nat :=
  match r with
  | c :: rest =>
    if isBaseChar c then
      let run := c :: rest.takeWhile isBaseChar
      match r.drop run.length with
      | '.' :: after =>
        match matchWordAlt FILE_EXTS after with
        | some (ext, _) => some (run.length + 1 + ext.length)
        | none => none
      | _ => none
    else none
  | [] => none

/-- `_FRAGMENTED_TAG_RE.sub(_merge_fragmented_tags, s)` (text_cleaner.py
lines 224-227, 581-583): `@(left)([-_])@(right)` → `@left{sep}right`. -/
def fragmentedTagMatcher : Matcher := fun _ _ s =>
  match s with
  | '@' :: r =>
    let run1 := r.takeWhile isBaseChar
    if run1.length ≥ 2 && (run1.getLast? = some '-' || run1.getLast? = some '_') then
      match r.drop run1.length with
      | '@' :: r2 =>
        match fragmentedRight r2 with
        | some rl =>
          some (("@").toList ++ run1 ++ r2.take rl, 1 + run1.length + 1 + rl)
        | none => none
      | _ => none
    else none
  | _ => none

/-- `_SPOKEN_FRAGMENTED_TAG_RE.sub(_merge_spoken_fragmented_tag, s)`
(text_cleaner.py lines 228-233, 585-588): `(?<![@\w])(left)\s+(sep)\s+@(right)`
→ `@left{_|-}right` (underscore when the separator word contains `under`). -/
def spokenFragmentedTagMatcher : Matcher := fun _ p1 s =>
  if prevNonWordNonTag p1 then
    match s with
    | c :: rest =>
      if isBaseChar c then
        let left := c :: rest.takeWhile isBaseChar
        let r0 := s.drop left.length
        let n1 := countWhile isPyWs r0
        if n1 = 0 then none
        else
          match matchFirstCI
              [("underscore").toList, ("under score").toList, ("dash").toList,
               ("hyphen").toList] (r0.drop n1) with
          | none => none
          | some (p, r1) =>
            let n2 := countWhile isPyWs r1
            if n2 = 0 then none
            else
              match r1.drop n2 with
              | '@' :: r2 =>
                match fragmentedRight r2 with
                | some rl =>
                  let sep := if isInfixLit ("under").toList (lowerStr p) then "_" else "-"
                  some (("@").toList ++ left ++ sep.toList ++ r2.take rl,
                    left.length + n1 + p.length + n2 + 1 + rl)
                | none => none
              | _ => none
      else none
    | [] => none
  else none

/-- `name = [A-Za-z0-9_-]+\.(?:EXTS)\b` of `_VERB_PREFIX_TAG_FILE_RE`
(same shape as a fragmented right half). -/
def verbPrefixTagName (r : List Char) : Option Nat := fragmentedRight r

/-- Continuation of `_VERB_PREFIX_TAG_FILE_RE` after the optional middle:
`(prefix)[A-Za-z0-9_-]{2,}\s+@(name)`; returns
`(prefixLen, wsLen, nameLen)`. -/
def verbPrefixTagTail (r : List Char) : Option (Nat × Nat × Nat) :=
  let run := r.takeWhile isBaseChar
  if run.length < 2 then none
  else
    let n := countWhile isPyWs (r.drop run.length)
    if n = 0 then none
    else
      match r.drop (run.length + n) with
      | '@' :: r2 =>
        match verbPrefixTagName r2 with
        | some nl => some (run.length, n, nl)
        | none => none
      | _ => none

/-- `(?:(?:the|this|that)\s+)?(?:file\s+)?` middle combinations, greedy
order; returns the candidate middle lengths to try. -/
def verbPrefixMiddles (r : List Char) : List Nat :=
  let art :=
    match matchFirstCI [("the").toList, ("this").toList, ("that").toList] r with
    | some (p, r1) =>
      let n := countWhile isPyWs r1
      if n ≥ 1 then some (p.length + n) else none
    | none => none
  let fileAt : Nat → Option Nat := fun off =>
    match dropCI ("file").toList (r.drop off) with
    | some r1 =>
      let n := countWhile isPyWs r1
      if n ≥ 1 then some (4 + n) else none
    | none => none
  let opts :=
    (match art with
     | some a =>
       (match fileAt a with
        | some f => [a + f, a]
        | none => [a])
     | none => []) ++
    (match fileAt 0 with
     | some f => [f]
     | none => [])
  opts ++ [0]

/-- `_VERB_PREFIX_TAG_FILE_RE.sub(_merge_prefixed_tagged_file, s)`
(text_cleaner.py lines 218-223, 590-604). -/
def verbPrefixTagFileMatcher : Matcher := fun _ p1 s =>
  if prevNonWord p1 then
    match matchFirstCI
        [("rename").toList, ("update").toList, ("modify").toList, ("edit").toList,
         ("open").toList, ("create").toList, ("delete").toList, ("move").toList,
         ("copy").toList] s with
    | none => none
    | some (v, rv) =>
      let n0 := countWhile isPyWs rv
      if n0 = 0 then none
      else
        let afterVerb := rv.drop n0
        let verbText := s.take v.length
        let rec tryMiddles : List Nat → Option (List Char × Nat)
          | [] => none
          | mid :: more =>
            match verbPrefixTagTail (afterVerb.drop mid) with
            | some (pl, wl, nl) =>
              let middleText := pyStrip (afterVerb.take mid)
              let preText := (afterVerb.drop mid).take pl
              let nameText := ((afterVerb.drop (mid + pl + wl)).drop 1).take nl
              let consumed := v.length + n0 + mid + pl + wl + 1 + nl
              let loweredName := lowerStr nameText
              let loweredPre := lowerStr preText
              if startsWithLit (loweredPre ++ ("-").toList) loweredName
                  || startsWithLit (loweredPre ++ ("_").toList) loweredName then
                some (s.take consumed, consumed)
              else if middleText.isEmpty then
                some (verbText ++ (" @").toList ++ preText ++ ("-").toList ++ nameText,
                  consumed)
              else
                some (verbText ++ [(' ' : Char)] ++ middleText ++ (" @").toList
                    ++ preText ++ ("-").toList ++ nameText, consumed)
            | none => tryMiddles more
        tryMiddles (verbPrefixMiddles afterVerb)
  else none

/-- A `@token.(js|jsx|ts|tsx)\b` tag of `_TAGGED_JS_LIST_RE`; returns the
consumed length. -/
def jsListTag (r : List Char) : Option Nat :=
  match r with
  | '@' :: r1 =>
    match r1 with
    | c :: rest =>
      if isBaseChar c then
        let run := c :: rest.takeWhile isBaseChar
        match r1.drop run.length with
        | '.' :: after =>
          match matchWordAlt
              [("js").toList, ("jsx").toList, ("ts").toList, ("tsx").toList] after with
          | some (ext, _) => some (1 + run.length + 1 + ext.length)
          | none => none
        | _ => none
      else none
    | [] => none
  | _ => none

/-- Greedy `(\s*,\s*tag)*` of `_TAGGED_JS_LIST_RE`. -/
def jsListCommas : Nat → List Char → Nat
  | 0, _ => 0
  | fuel + 1, r =>
    let n1 := countWhile isPyWs r
    match r.drop n1 with
    | ',' :: r1 =>
      let n2 := countWhile isPyWs r1
      match jsListTag (r1.drop n2) with
      | some k =>
        let step := n1 + 1 + n2 + k
        step + jsListCommas fuel (r.drop step)
      | none => 0
    | _ => 0

/-- Optional `(?:\s+and\s+tag)?` of `_TAGGED_JS_LIST_RE`. -/
def jsListAnd (r : List Char) : Nat :=
  let n1 := countWhile isPyWs r
  if n1 = 0 then 0
  else
    match dropCI ("and").toList (r.drop n1) with
    | some r1 =>
      let n2 := countWhile isPyWs r1
      if n2 = 0 then 0
      else
        match jsListTag (r1.drop n2) with
        | some k => n1 + 3 + n2 + k
        | none => 0
    | none => 0

/-- `_TAGGED_JS_LIST_RE.sub(_untag_js_list, s)` (text_cleaner.py lines
245-251, 606-609): strips the `@` of each tag in a
`terms like @a.js, @b.ts and @c.tsx` list. -/
def taggedJsListMatcher : Matcher := fun _ p1 s =>
  if prevNonWord p1 then
    match matchFirstCI
        [("terms").toList, ("term").toList, ("libraries").toList,
         ("frameworks").toList, ("framework").toList] s with
    | none => none
    | some (w, r0) =>
      let n1 := countWhile isPyWs r0
      if n1 = 0 then none
      else
        match dropCI ("like").toList (r0.drop n1) with
        | none => none
        | some r1 =>
          let n2 := countWhile isPyWs r1
          if n2 = 0 then none
          else
            let bodyStart := r1.drop n2
            match jsListTag bodyStart with
            | none => none
            | some k0 =>
              let k1 := k0 + jsListCommas bodyStart.length (bodyStart.drop k0)
              let bodyLen := k1 + jsListAnd (bodyStart.drop k1)
              let headLen := w.length + n1 + 4 + n2
              let bodyText := bodyStart.take bodyLen
              some (s.take headLen ++ bodyText.filter (fun c => c ≠ '@'),
                headLen + bodyLen)
  else none

/-- `TextCleaner._tag_file_mentions` (text_cleaner.py lines 473-486). -/
def tag_file_mentions (text : List Char) : List Char :=
  let t := gsub spokenComplexFileMatcher text
  let t := gsub spokenDotFileMatcher t
  let t := gsub explicitFileMatcher t
  let t := gsub bareFileMatcher t
  let t := gsub dupFileTagMatcher t
  let t := gsub loneExtTagMatcher t
  let t := gsub fragmentedTagMatcher t
  let t := gsub spokenFragmentedTagMatcher t
  let t := gsub verbPrefixTagFileMatcher t
  gsub taggedJsListMatcher t

/-- `_GENERIC_SYMBOLS` (text_cleaner.py lines 182-192). -/
def GENERIC_SYMBOLS : List (List Char) :=
  ["code", "file", "app", "function", "class", "module", "variable", "type",
   "interface"].map String.toList

/-- `_SYMBOL_FILE_EXT_RE.search(s)`: `\.(?:EXTS)$` (case-insensitive). -/
def endsWithFileExt (s : List Char) : Bool :=
  FILE_EXTS.any fun ext => endsWithLit (("." ).toList ++ ext) (lowerStr s)

/-- Shrink a greedy symbol name until its trailing word boundary holds
(the name class contains non-word characters, so `\b` can force
backtracking). -/
def shrinkToBoundary (s : List Char) : Nat → Nat → Nat
  | 0, len => len
  | fuel + 1, len =>
    if len ≤ 1 then len
    else
      match (s.take len).getLast? with
      | some last =>
        if boundarySeam last (s.drop len) then len
        else shrinkToBoundary s fuel (len - 1)
      | none => len

/-- `_SYMBOL_MENTION_RE.sub(_replace_symbol_mention, s)` (text_cleaner.py
lines 175-180, 565-579). -/
def symbolMentionMatcher : Matcher := fun _ p1 s =>
  if prevNonWord p1 then
    match matchFirstCI
        [("update").toList, ("modify").toList, ("refactor").toList, ("fix").toList,
         ("rename").toList, ("call").toList, ("use").toList, ("create").toList,
         ("open").toList, ("check").toList, ("test").toList] s with
    | none => none
    | some (v, rv) =>
      let n0 := countWhile isPyWs rv
      if n0 = 0 then none
      else
        let afterVerb := rv.drop n0
        let theLen :=
          match dropCI ("the").toList afterVerb with
          | some r1 =>
            let n := countWhile isPyWs r1
            if n ≥ 1 then 3 + n else 0
          | none => 0
        let afterThe := afterVerb.drop theLen
        match matchFirstCI
            [("function").toList, ("method").toList, ("class").toList,
             ("module").toList, ("variable").toList, ("interface").toList,
             ("type").toList] afterThe with
        | none => none
        | some (kd, rk) =>
          let n1 := countWhile isPyWs rk
          if n1 = 0 then none
          else
            let nameStart := rk.drop n1
            match nameStart with
            | c :: rest =>
              if c.isAlpha || c = '_' then
                let rawLen := 1 + min 64 (rest.takeWhile isTrailTokenChar).length
                let nameLen := shrinkToBoundary nameStart rawLen rawLen
                if nameLen < 2 then none
                else
                  let name := nameStart.take nameLen
                  let consumed := v.length + n0 + theLen + kd.length + n1 + nameLen
                  let full := s.take consumed
                  let normalized := pyStripChars (".,!?;:").toList name
                  if normalized.isEmpty then some (full, consumed)
                  else if GENERIC_SYMBOLS.contains (lowerStr normalized) then
                    some (full, consumed)
                  else if endsWithFileExt normalized then some (full, consumed)
                  else if isInfixLit (("@").toList ++ normalized) full then
                    some (full, consumed)
                  else
                    some (full ++ (" @").toList ++ normalized, consumed)
              else none
            | [] => none
  else none

/-- Greedy exact `(?:\s+\1)+` repetitions for the duplicate-symbol
collapse (case-sensitive back-reference, no trailing boundary). -/
def dupTagReps (tag : List Char) : Nat → List Char → Nat
  | 0, _ => 0
  | fuel + 1, r =>
    let n := countWhile isPyWs r
    if n = 0 then 0
    else
      match dropLit tag (r.drop n) with
      | some _ =>
        let step := n + tag.length
        step + dupTagReps tag fuel (r.drop step)
      | none => 0

/-- `_DUPLICATE_SYMBOL_TAG_RE.sub(r"\1", s)` (text_cleaner.py lines
193-195): `(@[A-Za-z_][A-Za-z0-9_.:-]*)(?:\s+\1)+` → the tag. -/
def dupSymbolTagMatcher : Matcher := fun _ _ s =>
  match s with
  | '@' :: c :: rest =>
    if c.isAlpha || c = '_' then
      let run := c :: rest.takeWhile isTrailTokenChar
      let tag := '@' :: run
      let repLen := dupTagReps tag s.length (s.drop tag.length)
      if repLen = 0 then none
      else some (tag, tag.length + repLen)
    else none
  | _ => none

/-- `TextCleaner._tag_symbol_mentions` (text_cleaner.py lines 488-493). -/
def tag_symbol_mentions (text : List Char) : List Char :=
  gsub dupSymbolTagMatcher (gsub symbolMentionMatcher text)

end VoiceFlow

namespace VoiceFlow

/-- `TextCleaner.clean` (text_cleaner.py lines 273-307): the full
deterministic cleanup pipeline.  The dictionary is the (unsorted) item
list of the Python dict. -/
def clean (text : List Char) (dictionary : List (List Char × List Char))
    (programmer_mode : Bool) : List Char :=
  let t := gsub fillerWordMatcher text
  let t := gsub fillerPairMatcher t
  let t := stripLeadingDiscourse t
  let t := gsub inlineDiscourseMatcher t
  let t := gsub hesitationChainMatcher t
  let t := gsub yeahFillerMatcher t
  let t := gsub discourseFillerMatcher t
  let t := gsub repeatedWordMatcher t
  let t := normalize_spoken_acronyms t
  let t := applyDictionary dictionary t
  let t := apply_self_corrections t
  let t := collapse_repeated_clauses t
  let t := dedupe_adjacent_sentences t
  let t := prune_low_information_fragments t
  let t := if programmer_mode then tag_symbol_mentions (tag_file_mentions t) else t
  let t := normalize_readability t
  let t := gsub squeezeWsMatcher t
  let t := gsub wsBeforePunctMatcher t
  let t := gsub commaBeforeTerminalMatcher t
  let t := stripTrailingComma t
  let t := stripLeadingCommaWs t
  pyStrip t

/-- `TextCleaner.clean_conservative` (text_cleaner.py lines 309-341):
identical to `clean` except that `_apply_self_corrections` is skipped. -/
def clean_conservative (text : List Char) (dictionary : List (List Char × List Char))
    (programmer_mode : Bool) : List Char :=
  let t := gsub fillerWordMatcher text
  let t := gsub fillerPairMatcher t
  let t := stripLeadingDiscourse t
  let t := gsub inlineDiscourseMatcher t
  let t := gsub hesitationChainMatcher t
  let t := gsub yeahFillerMatcher t
  let t := gsub discourseFillerMatcher t
  let t := gsub repeatedWordMatcher t
  let t := normalize_spoken_acronyms t
  let t := applyDictionary dictionary t
  let t := collapse_repeated_clauses t
  let t := dedupe_adjacent_sentences t
  let t := prune_low_information_fragments t
  let t := if programmer_mode then tag_symbol_mentions (tag_file_mentions t) else t
  let t := normalize_readability t
  let t := gsub squeezeWsMatcher t
  let t := gsub wsBeforePunctMatcher t
  let t := gsub commaBeforeTerminalMatcher t
  let t := stripTrailingComma t
  let t := stripLeadingCommaWs t
  pyStrip t

end VoiceFlow

namespace VoiceFlow

/-! ### `src/app/transcription/__init__.py` — pipeline guards -/

/-- `_CORRECTION_CUE_RE.search(s)` (__init__.py lines 27-31):
`\b(sorry|i mean|i meant|no wait|wait no|no,\s*no|scratch that|never mind|`
`let me rephrase|correction|rather)\b`. -/
def correctionCueMatcher : Matcher := fun _ p1 s =>
  if prevNonWord p1 then
    let viaPhrase :=
      match matchFirstCI
          [("sorry").toList, ("i mean").toList, ("i meant").toList,
           ("no wait").toList, ("wait no").toList] s with
      | some (p, r) => if boundarySeam (p.getLast?.getD ' ') r then some (s.length - r.length) else none
      | none => none
    let viaNoCommaNo :=
      match dropCI ("no,").toList s with
      | some r1 =>
        let n := countWhile isPyWs r1
        match dropCI ("no").toList (r1.drop n) with
        | some r2 => if boundarySeam 'o' r2 then some (s.length - r2.length) else none
        | none => none
      | none => none
    let viaTail :=
      match matchFirstCI
          [("scratch that").toList, ("never mind").toList,
           ("let me rephrase").toList, ("correction").toList, ("rather").toList] s with
      | some (p, r) => if boundarySeam (p.getLast?.getD ' ') r then some (s.length - r.length) else none
      | none => none
    match viaPhrase with
    | some k => some ([], k)
    | none =>
      match viaNoCommaNo with
      | some k => some ([], k)
      | none =>
        match viaTail with
        | some k => some ([], k)
        | none => none
  else none

/-- `_CORRECTION_CUE_RE.search(s)` as a Boolean. -/
def hasCorrectionCue (s : List Char) : Bool := search correctionCueMatcher s

/-- `_FILLER_CUE_RE.search(s)` (__init__.py lines 47-50):
`\b(um+|uh+|hmm+|hm+|you know|sort of|kind of|basically|literally)\b`. -/
def fillerCueMatcher : Matcher := fun _ p1 s =>
  if prevNonWord p1 then
    let run := s.takeWhile isWordChar
    let runHit :=
      match lowerStr run with
      | [] => false
      | c :: rest =>
        !rest.isEmpty &&
        ((c = 'u' && rest.all (· = 'm')) || (c = 'u' && rest.all (· = 'h')) ||
         (c = 'h' && rest.all (· = 'm')))
    if runHit then some ([], run.length)
    else
      match matchFirstCI
          [("you know").toList, ("sort of").toList, ("kind of").toList,
           ("basically").toList, ("literally").toList] s with
      | some (p, r) =>
        if boundarySeam (p.getLast?.getD ' ') r then some ([], s.length - r.length) else none
      | none => none
  else none

/-- `_FILLER_CUE_RE.search(s)` as a Boolean. -/
def hasFillerCue (s : List Char) : Bool := search fillerCueMatcher s

/-- `_COMPLEX_TEXT_RE.search(s)` (__init__.py line 46):
`[,:;]|(?:\b(and|but|because|then)\b)`. -/
def hasComplexity (s : List Char) : Bool :=
  s.any (fun c => c = ',' || c = ':' || c = ';')
    || search (fun _ p1 t =>
        if prevNonWord p1 then
          match matchWordAlt
              [("and").toList, ("but").toList, ("because").toList,
               ("then").toList] t with
          | some (p, _) => some ([], p.length)
          | none => none
        else none) s

/-- `_SENTENCE_END_RE.findall(text)` count (__init__.py line 65): the
number of `.`, `!` or `?` characters. -/
def sentenceEndCount (s : List Char) : Nat :=
  (s.filter (fun c => c = '.' || c = '!' || c = '?')).length

/-- `text.endswith((".", "!", "?"))`. -/
def endsTerminal (s : List Char) : Bool :=
  match s.getLast? with
  | some c => c = '.' || c = '!' || c = '?'
  | none => false

/-- `_ORPHAN_END_RE.search(s)` (__init__.py lines 59-63):
`\b(and|or|but|also|so|because|then|if|that|which|who|when|where|while|`
`although|however|therefore)$` — the final maximal word run is one of the
orphan conjunctions. -/
def ORPHAN_WORDS : List (List Char) :=
  ["and", "or", "but", "also", "so", "because", "then", "if", "that", "which",
   "who", "when", "where", "while", "although", "however",
   "therefore"].map String.toList

/-- `_ORPHAN_END_RE.search(s)` as a Boolean. -/
def orphanEnd (s : List Char) : Bool :=
  let run := (s.reverse.takeWhile isWordChar).reverse
  !run.isEmpty && ORPHAN_WORDS.contains (lowerStr run)

/-- `TranscriptionPipeline._should_refine` (__init__.py lines 532-568). -/
def should_refine (text : List Char) (raw_text : Option (List Char)) : Bool :=
  let stripped := pyStrip text
  let word_count := wordCount text
  if word_count < 4 then false
  else if word_count ≥ 60 then false
  else if stripped.getLast? = some '?' || questionStart stripped then false
  else if hasCorrectionCue text
      || (match raw_text with | some r => hasCorrectionCue r | none => false) then true
  else if (match raw_text with | some r => hasFillerCue r | none => false) then true
  else if word_count ≥ 24 then false
  else if sentenceEndCount text ≥ 2 && word_count ≥ 16 then false
  else if word_count ≥ 40 && endsTerminal text then false
  else if word_count ≤ 10 then false
  else if word_count < 14 && endsTerminal text then false
  else
    let has_complexity := hasComplexity text
    if endsTerminal text && word_count < 24 && !has_complexity then false
    else if has_complexity && !endsTerminal text then true
    else word_count ≥ 22 && !endsTerminal text

/-- Number of binary digits of `n` (0 for 0); fuelled, with `n` itself as
enough fuel. -/
def bitLenAux : Nat → Nat → Nat
  | 0, _ => 0
  | _ + 1, 0 => 0
  | fuel + 1, n => bitLenAux fuel (n / 2) + 1

/-- Number of binary digits of `n` (0 for 0). -/
def bitLen (n : Nat) : Nat := bitLenAux n n

/-- Floor of the IEEE-754 double nearest to `P / 2 ^ 53`, rounding to
nearest with ties to even.  This embeds Python `int(n * c)` exactly for a
float constant `c` between one half and one whose double value is
`M / 2 ^ 53`: take `P = n * M`.  For every `n` below `2 ^ 53` the float
`n` is exact and the product is correctly rounded to the nearest double,
which `int` then truncates; `d` is the number of excess low bits beyond
the 53-bit significand, `q` the kept bits, `r` the discarded bits and `h`
the rounding midpoint (when `d = 0` the value is already exact and
`r < h` keeps `q` unchanged). -/
def floorNearestDouble (P : Nat) : Nat :=
  let d := bitLen P - 53
  let q := P / 2 ^ d
  let r := P % 2 ^ d
  let h := 2 ^ (d - 1)
  let k := if h < r then q + 1 else if r < h then q else if q % 2 = 0 then q else q + 1
  k * 2 ^ d / 2 ^ 53

/-- `TranscriptionPipeline._is_suspiciously_short_refinement` (__init__.py
lines 570-589).  The truncated float products `int(n * 0.88)`,
`int(n * 0.82)`, `int(n * 0.65)` and `int(n * 0.70)` are embedded
exactly through `floorNearestDouble`: the doubles 0.88, 0.82, 0.65 and
0.70 equal 7926335344172073, 7385903388887613, 5854679515581645 and
6305039478318694 over `2 ^ 53` respectively.  The distinction matters:
0.82 and 0.70 round below their decimal values, so for instance Python
`int(90 * 0.70)` is 62 while the rational floor `70 * 90 / 100` is 63,
and `int(150 * 0.82)` is 122 while the rational floor is 123. -/
def is_suspiciously_short_refinement (source candidate : List Char) : Bool :=
  let source_words := wordCount source
  let candidate_words := wordCount candidate
  if source_words < 10 then false
  else if candidate_words ≤ 3 then true
  else if source_words ≥ 40
      && candidate_words < floorNearestDouble (source_words * 7926335344172073) then true
  else if source_words ≥ 30
      && candidate_words < floorNearestDouble (source_words * 7385903388887613) then true
  else if source_words ≥ 18
      && candidate_words < floorNearestDouble (source_words * 5854679515581645) then true
  else if candidate.length < floorNearestDouble (source.length * 6305039478318694)
      && source_words ≥ 24 then true
  else if !(pyStrip candidate).isEmpty && orphanEnd (pyStrip candidate) then true
  else false

/-- A match of `_FILE_TOKEN_RE` (__init__.py line 32):
`@?[A-Za-z0-9][A-Za-z0-9_. slash -]*\.[A-Za-z0-9]{1,6}\b` — like the explicit
file pattern but with a free-form 1-6 alphanumeric extension. -/
def fileTokenSplitScan (s : List Char) : Nat → Option Nat
  | 0 => none
  | i + 1 =>
    (match s.drop i with
     | '.' :: after =>
       let extRun := after.takeWhile Char.isAlphanum
       let tryLen : Nat → Option Nat := fun n =>
         if 1 ≤ n && n ≤ 6 && boundaryAfter (after.drop n) then some n else none
       let extLen :=
         match tryLen (min 6 extRun.length) with
         | some n => some n
         | none => none
       match extLen with
       | some n => some (i + 1 + n)
       | none => none
     | _ => none)
    |>.orElse (fun _ => fileTokenSplitScan s i)

/-- `_FILE_TOKEN_RE` as a matcher (whole match consumed). -/
def fileTokenMatcher : Matcher := fun _ _ s =>
  let core := fun (t : List Char) (offset : Nat) =>
    match t with
    | c :: rest =>
      if c.isAlphanum then
        let runLen := 1 + (rest.takeWhile isExplicitFileChar).length
        match fileTokenSplitScan t runLen with
        | some nameLen => some ((0 : Nat), offset + nameLen)
        | none => none
      else none
    | [] => none
  match s with
  | '@' :: rest =>
    match core rest 1 with
    | some (_, k) => some (s.take k, k)
    | none =>
      match core s 0 with
      | some (_, k) => some (s.take k, k)
      | none => none
  | _ =>
    match core s 0 with
    | some (_, k) => some (s.take k, k)
    | none => none

/-- `TranscriptionPipeline._extract_file_tokens` (__init__.py lines
591-596): the set of matched tokens, lower-cased, with leading `@`
stripped (a deduplicated list; only its size and membership are used). -/
def extract_file_tokens (text : List Char) : List (List Char) :=
  ((scanMatches fileTokenMatcher text).map
    (fun t => lowerStr (t.dropWhile (fun c => c = '@')))).dedup

/-- One `@[\w . slash -]+` tag of `_BARE_FILE_TAG_SENTENCE_RE`. -/
def bareTagToken (r : List Char) : Option Nat :=
  match r with
  | '@' :: rest =>
    let run := rest.takeWhile (fun c => isWordChar c || c = '.' || c = '/' || c = '-')
    if run.isEmpty then none else some (1 + run.length)
  | _ => none

/-- Trailing `(?:\s+@[\w . slash -]+)*[.!?]?\s*$` of the bare-tag sentence. -/
def bareTagSentenceTail : Nat → List Char → Bool
  | 0, r => r.isEmpty
  | fuel + 1, r =>
    let n := countWhile isPyWs r
    let viaMore :=
      if n ≥ 1 then
        match bareTagToken (r.drop n) with
        | some k => some (bareTagSentenceTail fuel (r.drop (n + k)))
        | none => none
      else none
    match viaMore with
    | some b => b
    | none =>
      let afterPunct :=
        match r with
        | c :: rest => if c = '.' || c = '!' || c = '?' then rest else r
        | [] => r
      afterPunct.all isPyWs

/-- `_BARE_FILE_TAG_SENTENCE_RE.match(sentence)` (__init__.py lines 33-36):
`^\s*@[\w . slash -]+(?:\s+@[\w . slash -]+)*[.!?]?\s*$`. -/
def isBareFileTagSentence (s : List Char) : Bool :=
  let t := s.drop (countWhile isPyWs s)
  match bareTagToken t with
  | some k => bareTagSentenceTail t.length (t.drop k)
  | none => false

/-- `TranscriptionPipeline._has_orphan_file_tag_sentence` (__init__.py
lines 598-601). -/
def has_orphan_file_tag_sentence (text : List Char) : Bool :=
  (((splitAfter ['.', '!', '?'] (pyStrip text)).map pyStrip).filter
    (fun c => !c.isEmpty)).any isBareFileTagSentence

/-- `_SINGLE_TARGET_ACTION_RE.search(s)` (__init__.py lines 37-40). -/
def hasSingleTargetAction (s : List Char) : Bool :=
  search (fun _ p1 t =>
    if prevNonWord p1 then
      match matchWordAlt
          [("update").toList, ("modify").toList, ("fix").toList,
           ("refactor").toList, ("edit").toList, ("open").toList,
           ("check").toList, ("test").toList, ("use").toList,
           ("call").toList] t with
      | some (p, _) => some ([], p.length)
      | none => none
    else none) s

/-- `_MULTI_TARGET_ACTION_RE.search(s)` (__init__.py line 41). -/
def hasMultiTargetAction (s : List Char) : Bool :=
  search (fun _ p1 t =>
    if prevNonWord p1 then
      match matchWordAlt [("rename").toList, ("move").toList, ("copy").toList] t with
      | some (p, _) => some ([], p.length)
      | none => none
    else none) s

/-- `_TO_FILE_RE.search(s)` (__init__.py lines 42-45):
`\bto\s+@?[A-Za-z0-9][A-Za-z0-9_. slash -]*\.[A-Za-z0-9]{1,6}\b`. -/
def hasToFile (s : List Char) : Bool :=
  search (fun _ p1 t =>
    if prevNonWord p1 then
      match dropCI ("to").toList t with
      | some r =>
        let n := countWhile isPyWs r
        if n = 0 then none
        else
          let r1 := r.drop n
          let core :=
            match r1 with
            | '@' :: rest2 =>
              (match rest2 with
               | c :: _ =>
                 if c.isAlphanum then
                   let runLen := 1 + ((rest2.drop 1).takeWhile isExplicitFileChar).length
                   (fileTokenSplitScan rest2 runLen).map (fun k => k + 1)
                 else none
               | [] => none)
            | c :: _ =>
              if c.isAlphanum then
                let runLen := 1 + ((r1.drop 1).takeWhile isExplicitFileChar).length
                fileTokenSplitScan r1 runLen
              else none
            | [] => none
          match core with
          | some k => some ([], t.length - r1.length + k)
          | none => none
      | none => none
    else none) s

/-- `TranscriptionPipeline._is_suspicious_refinement` (__init__.py lines
603-626). -/
def is_suspicious_refinement (source candidate : List Char)
    (programmer_mode : Bool) : Bool :=
  if !programmer_mode then false
  else if has_orphan_file_tag_sentence candidate then true
  else
    let source_files := extract_file_tokens source
    let candidate_files := extract_file_tokens candidate
    if source_files.length = 1 && candidate_files.length > 1 then true
    else if !hasCorrectionCue source then false
    else if !hasSingleTargetAction source then false
    else if hasMultiTargetAction source || hasToFile source then false
    else candidate_files.length > 1

/-- `TranscriptionPipeline._preserve_completeness` (__init__.py lines
628-667).  `int(raw_words * 0.78)` and `int(raw_words * 0.55)` are the
floors of the exact rational products. -/
def preserve_completeness (raw cleaned : List Char)
    (dictionary_terms : List (List Char × List Char)) (programmer_mode : Bool) :
    List Char :=
  let raw_words := wordCount raw
  let cleaned_words := wordCount cleaned
  if raw_words < 24 || cleaned_words = 0 then cleaned
  else if hasCorrectionCue raw then cleaned
  else if cleaned_words ≥ 78 * raw_words / 100 then cleaned
  else
    let severe_drop := cleaned_words < 55 * raw_words / 100
    let orphan_end := orphanEnd (pyStrip cleaned)
    if !severe_drop && !orphan_end then cleaned
    else
      let conservative := clean_conservative raw dictionary_terms programmer_mode
      if wordCount conservative > cleaned_words then conservative else cleaned

/-- `_HALLUCINATION_PATTERNS` (__init__.py lines 82-89): whether the
stripped raw transcript fully matches one of the six anchored patterns
(case-insensitively). -/
def hallucinationMatch (s : List Char) : Bool :=
  let t := lowerStr s
  t = ("thank you").toList || t = ("thank you.").toList
    || t = ("thanks").toList || t = ("thanks.").toList
    || t = ("thanks for watching").toList || t = ("thanks for watching.").toList
    || t = ("you").toList
    || (!t.isEmpty && t.all (fun c => c = '.'))
    || (!t.isEmpty && t.all (fun c => c = ','))

/-- `_PROMPT_ECHO_FRAGMENTS` (__init__.py lines 91-99). -/
def PROMPT_ECHO_FRAGMENTS : List (List Char) :=
  ["transcribe clearly", "natural punctuation", "software development dictation",
   "clean, well-punctuated transcription", "software development session",
   "softwareentwicklungssitzung",
   "klar und korrekt transkribieren"].map String.toList

/-- The prompt-echo test of `TranscriptionPipeline.process` (__init__.py
lines 176-181): fewer than 15 words and a fragment occurs in the lowered
stripped transcript. -/
def promptEchoDetected (raw_stripped : List Char) : Bool :=
  (pySplit raw_stripped).length < 15
    && PROMPT_ECHO_FRAGMENTS.any (fun frag => isInfixLit frag (lowerStr raw_stripped))

/-- The text path of `TranscriptionPipeline.process` (__init__.py lines
154-292) from the point where the raw STT transcript `raw` is available.
`dictionary_terms` is `{}` in normal mode and the dictionary's terms in
programmer mode (the caller's responsibility, as in `process`).
`refinerOutput` models the sanitized result of `self.refiner.refine`:
`none` when the refiner is absent, not loaded, or the cleanup mode is
`fast` (the refiner is then never consulted); `some r` when the refiner
would produce `r`.  The guards and final stages follow the source. -/
def processTranscript (raw : List Char)
    (dictionary_terms : List (List Char × List Char)) (programmer_mode : Bool)
    (refinerOutput : Option (List Char)) : List Char :=
  let raw_stripped := pyStrip raw
  if hallucinationMatch raw_stripped then []
  else if promptEchoDetected raw_stripped then []
  else if raw_stripped.isEmpty then []
  else
    let cleaned := clean raw dictionary_terms programmer_mode
    let needs_refinement := should_refine cleaned (some raw)
    let cleaned :=
      match refinerOutput, needs_refinement with
      | some refined, true =>
        if (pyStrip refined).isEmpty then cleaned
        else if is_suspiciously_short_refinement cleaned refined then cleaned
        else if is_suspicious_refinement cleaned refined programmer_mode then cleaned
        else refined
      | _, _ => cleaned
    let finalized := clean cleaned dictionary_terms programmer_mode
    let cleaned := if !(pyStrip finalized).isEmpty then finalized else cleaned
    preserve_completeness raw cleaned dictionary_terms programmer_mode

end VoiceFlow

namespace VoiceFlow

/-! ### Comparison definitions and concrete inputs for the claims -/

/-- The completeness-preservation trigger as claim P6 states it, modelled
from the spec sentence: raw has ≥ 24 words AND cleaned has < 78% of raw's
word count AND no correction cue in raw AND (cleaned is < 55% of raw OR
ends with an orphan conjunction).  (For comparison with the exits of
`preserve_completeness`; the percentages are exact rational comparisons.) -/
def specCompletenessFallback (raw cleaned : List Char) : Bool :=
  decide (wordCount raw ≥ 24)
    && decide (100 * wordCount cleaned < 78 * wordCount raw)
    && !hasCorrectionCue raw
    && (decide (100 * wordCount cleaned < 55 * wordCount raw)
        || orphanEnd (pyStrip cleaned))

/-- The exact branch condition under which `_preserve_completeness` reruns
`clean_conservative` (__init__.py lines 636-656). -/
def completenessFallbackFired (raw cleaned : List Char) : Bool :=
  decide (wordCount raw ≥ 24) && decide (wordCount cleaned ≠ 0)
    && !hasCorrectionCue raw
    && decide (wordCount cleaned < 78 * wordCount raw / 100)
    && (decide (wordCount cleaned < 55 * wordCount raw / 100)
        || orphanEnd (pyStrip cleaned))

/-- A raw transcript of 26 words whose only structure is an inline
`i mean` self-correction: cleaning rewrites it to the single word
`Omega.`, and the correction cue blocks the completeness fallback. -/
def completenessCounterexampleRaw : List Char :=
  ("alpha beta gamma delta epsilon zeta eta theta iota kappa lambda mu nu xi omicron pi rho sigma tau upsilon phi chi psi i mean omega").toList

/-- A 20-word source text for the token-budget comparison. -/
def twentyWordSource : List Char :=
  ("one two three four five six seven eight nine ten eleven twelve thirteen fourteen fifteen sixteen seventeen eighteen nineteen twenty").toList

end VoiceFlow

namespace VoiceFlow

/-! ## Theorems for the claims -/

/-- Claim C10: calling `TextInserter.insert` with an empty string returns
`True` immediately: no clipboard write, no paste keystroke, no pending
restore, and every piece of inserter state except `last_error` (which is
reset to `None` first, text_inserter.py line 57) is unchanged.  (The
clipboard read also cannot happen: in the source it sits in the non-empty
branch, after the early return.) -/
theorem empty_insert_is_frame_free (s : ClipState) (restore_clipboard trusted : Bool)
    (env1 env2 env3 : Option (List Char)) :
    VoiceFlow.insert s [] restore_clipboard trusted env1 env2 env3 =
      ⟨true, { s with lastError := none }, false, [], none, none⟩ := by
  simp [VoiceFlow.insert]

/-- Claim C1, counterexample: in the synchronous restore path (text below
420 characters) the inserter writes the original clipboard back even
though the clipboard it observed at restore time (`other`, written by the
environment during the restore delay) differs from the text it pasted.
This contradicts the claim that in no execution the inserter overwrites a
clipboard whose current content differs from the text it wrote. -/
theorem sync_restore_overwrites_changed_clipboard :
    (VoiceFlow.insert ⟨("orig").toList, 0, none⟩ ("hi").toList true true
        none none (some ("other").toList)).clipAtSyncRestore = some ("other").toList
    ∧ ("other").toList ≠ ("hi").toList
    ∧ (VoiceFlow.insert ⟨("orig").toList, 0, none⟩ ("hi").toList true true
        none none (some ("other").toList)).state.clipboard = ("orig").toList := by
  refine ⟨rfl, by decide, rfl⟩

/-- Claim C1, amended: the DEFERRED restore (`_restore_clipboard_if_safe`,
used for texts of ≥ 420 characters) changes the clipboard only when the
generation token still matches and the clipboard still equals the inserted
text, and then it writes the original; the SYNCHRONOUS path (texts under
420 characters) writes the original back unconditionally after its delay,
whatever the clipboard holds by then. -/
theorem clipboard_restore_amended :
    (∀ (s : ClipState) (token : Nat) (insertedText originalText : List Char),
      (restore_clipboard_if_safe s token insertedText originalText).clipboard ≠ s.clipboard →
        token = s.generation ∧ s.clipboard = insertedText ∧
        (restore_clipboard_if_safe s token insertedText originalText).clipboard = originalText)
    ∧ (∀ (s : ClipState) (text : List Char) (env1 env2 env3 : Option (List Char)),
      text.isEmpty = false → text.length < ASYNC_RESTORE_CHARS →
        (VoiceFlow.insert s text true true env1 env2 env3).state.clipboard = s.clipboard) := by
  constructor
  · intro s token insertedText originalText h
    unfold restore_clipboard_if_safe at *
    split_ifs at h ⊢ with h1 h2
    · exact absurd rfl h
    · exact absurd rfl h
    · exact ⟨by omega, by simpa using h2, rfl⟩
  · intro s text env1 env2 env3 hne hlen
    unfold VoiceFlow.insert
    simp only [hne, Bool.false_eq_true, if_false]
    have : ¬ text.length ≥ ASYNC_RESTORE_CHARS := by omega
    cases env1 <;> cases env2 <;> cases env3 <;>
      simp [applyEnv, this]

/-- Witness for `clipboard_restore_amended` at concrete inputs: a deferred
restore whose clipboard still holds the pasted text restores the original,
and a short synchronous insert always ends with the original clipboard. -/
theorem clipboard_restore_amended_witness :
    (1 = 1 ∧ ("t").toList = ("t").toList ∧
      (restore_clipboard_if_safe ⟨("t").toList, 1, none⟩ 1 ("t").toList
        ("o").toList).clipboard = ("o").toList)
    ∧ (VoiceFlow.insert ⟨("a").toList, 0, none⟩ ("hi").toList true true
        none none (some ("z").toList)).state.clipboard = ("a").toList := by
  exact ⟨clipboard_restore_amended.1 ⟨("t").toList, 1, none⟩ 1 ("t").toList ("o").toList
      (by decide),
    clipboard_restore_amended.2 ⟨("a").toList, 0, none⟩ ("hi").toList
      none none (some ("z").toList) (by decide) (by decide)⟩

/-- Claim C8: a raw STT transcript that, stripped, matches the
hallucination blocklist case-insensitively makes `process` return the
empty string, whatever the dictionary, mode or refiner state. -/
theorem hallucination_blocklist_empties_output
    (raw : List Char) (dictionary_terms : List (List Char × List Char))
    (programmer_mode : Bool) (refinerOutput : Option (List Char))
    (h : hallucinationMatch (pyStrip raw) = true) :
    processTranscript raw dictionary_terms programmer_mode refinerOutput = [] := by
  unfold processTranscript
  simp [h]

/-- Witness for `hallucination_blocklist_empties_output`: the non-empty
transcript `Thank you.` produces empty output. -/
theorem hallucination_blocklist_witness :
    (("Thank you.").toList ≠ []) ∧
      processTranscript ("Thank you.").toList [] false none = [] := by
  exact ⟨by decide,
    hallucination_blocklist_empties_output ("Thank you.").toList [] false none (by decide)⟩

/-- Claim C4, counterexample: for a 20-word source the code requests
`min(max(int(20 * 1.8), 32), 128) = 36` output tokens, not the claimed
`clamp(ceil(20 * 1.2), 20, 80) = 24`. -/
theorem token_budget_formula_counterexample :
    refineMaxTokens twentyWordSource = 36
    ∧ specMaxTokens twentyWordSource = 24
    ∧ refineMaxTokens twentyWordSource ≠ specMaxTokens twentyWordSource := by
  refine ⟨by decide, by decide, by decide⟩

/-- Claim C4, amended: the requested budget is
`clamp(int(word_count × 1.8), 32, 128)` — 32 up to 17 words, `⌊1.8·wc⌋`
between 18 and 71 words, 128 from 72 words — and sampling is greedy
(temperature 0). -/
theorem token_budget_amended (text : List Char) :
    32 ≤ refineMaxTokens text
    ∧ refineMaxTokens text ≤ 128
    ∧ (wordCount text ≤ 17 → refineMaxTokens text = 32)
    ∧ (18 ≤ wordCount text → wordCount text ≤ 71 →
        refineMaxTokens text = 9 * wordCount text / 5)
    ∧ (72 ≤ wordCount text → refineMaxTokens text = 128)
    ∧ refineTemperature = 0 := by
  unfold refineMaxTokens
  refine ⟨?_, ?_, ?_, ?_, ?_, rfl⟩ <;> omega

/-- Witness for `token_budget_amended` at the 20-word source. -/
theorem token_budget_amended_witness :
    18 ≤ wordCount twentyWordSource ∧ wordCount twentyWordSource ≤ 71 ∧
      refineMaxTokens twentyWordSource = 9 * wordCount twentyWordSource / 5 := by
  exact ⟨by decide, by decide,
    (token_budget_amended twentyWordSource).2.2.2.1 (by decide) (by decide)⟩

end VoiceFlow

namespace VoiceFlow

/-- Membership bounds for the descending search range. -/
theorem descRange_mem {k hi lo : Nat} (h : k ∈ descRange hi lo) :
    lo ≤ k ∧ k ≤ hi := by
  simp only [descRange, List.mem_map, List.mem_range] at h
  obtain ⟨i, hi', rfl⟩ := h
  omega

/-- Claim C5: `_find_token_overlap` returns `k` with
`0 ≤ k ≤ min(|L|, |R|, 20)`; a nonzero `k` either comes from the exact
branch, in which case `L[-k:] == R[:k]`, or from the fuzzy branch with
`k ≥ 6` and at most `⌊k/6⌋` positionwise mismatches. -/
theorem find_token_overlap_sound (left right : List (List Char)) :
    find_token_overlap left right ≤ left.length
    ∧ find_token_overlap left right ≤ right.length
    ∧ find_token_overlap left right ≤ MAX_OVERLAP_WORDS
    ∧ (find_token_overlap left right = 0
      ∨ left.drop (left.length - find_token_overlap left right) =
          right.take (find_token_overlap left right)
      ∨ (6 ≤ find_token_overlap left right
        ∧ mismatchCount
            (left.drop (left.length - find_token_overlap left right))
            (right.take (find_token_overlap left right))
          ≤ find_token_overlap left right / 6)) := by
  suffices main : ∀ k, find_token_overlap left right = k →
      k ≤ left.length ∧ k ≤ right.length ∧ k ≤ MAX_OVERLAP_WORDS
      ∧ (k = 0 ∨ left.drop (left.length - k) = right.take k
        ∨ (6 ≤ k ∧ mismatchCount (left.drop (left.length - k)) (right.take k) ≤ k / 6)) by
    exact main _ rfl
  intro k hk
  unfold find_token_overlap at hk
  dsimp only at hk
  split at hk
  · exact hk ▸ ⟨Nat.zero_le _, Nat.zero_le _, Nat.zero_le _, Or.inl rfl⟩
  · split at hk
    next k' hfind =>
      subst hk
      have hmem := descRange_mem (List.mem_of_find?_eq_some hfind)
      have hp := List.find?_some hfind
      simp only [decide_eq_true_eq] at hp
      simp only [MAX_OVERLAP_WORDS, MIN_OVERLAP_WORDS] at hmem ⊢
      refine ⟨by omega, by omega, by omega, Or.inr (Or.inl hp)⟩
    next =>
      split at hk
      next k' hfind =>
        subst hk
        have hmem := descRange_mem (List.mem_of_find?_eq_some hfind)
        have hp := List.find?_some hfind
        simp only [decide_eq_true_eq] at hp
        simp only [MAX_OVERLAP_WORDS, MIN_OVERLAP_WORDS] at hmem ⊢
        refine ⟨by omega, by omega, by omega, Or.inr (Or.inr ⟨by omega, hp⟩)⟩
      next =>
        exact hk ▸ ⟨Nat.zero_le _, Nat.zero_le _, Nat.zero_le _, Or.inl rfl⟩

end VoiceFlow


namespace VoiceFlow

set_option maxHeartbeats 2000000 in
/-- Claim C9: the default trailing-capture budget is a non-decreasing,
tiered function of the elapsed recording duration, never exceeds 1100 ms,
equals 280 ms when no tier applies (below 4 s, and when no start timestamp
exists), is 520 ms ∈ [400, 600] for a 16-second recording and
960 ms ∈ [900, 1100] for a 130-second recording. -/
theorem trailing_capture_tiers :
    (∀ a b : ℚ, a ≤ b →
      default_trailing_capture_ms (some a) ≤ default_trailing_capture_ms (some b))
    ∧ (∀ x : Option ℚ, default_trailing_capture_ms x ≤ 1100)
    ∧ default_trailing_capture_ms none = 280
    ∧ (∀ e : ℚ, max 0 e < 4 → default_trailing_capture_ms (some e) = 280)
    ∧ (400 ≤ default_trailing_capture_ms (some 16)
        ∧ default_trailing_capture_ms (some 16) ≤ 600)
    ∧ (900 ≤ default_trailing_capture_ms (some 130)
        ∧ default_trailing_capture_ms (some 130) ≤ 1100) := by
  refine ⟨?_, ?_, rfl, ?_, ⟨by decide, by decide⟩, ⟨by decide, by decide⟩⟩
  · intro a b hab
    have hmax : max 0 a ≤ max 0 b := max_le_max le_rfl hab
    unfold default_trailing_capture_ms TRAILING_CAPTURE_MS
    dsimp only
    split_ifs <;> linarith
  · intro x
    cases x with
    | none => decide
    | some e =>
      unfold default_trailing_capture_ms TRAILING_CAPTURE_MS
      dsimp only
      split_ifs <;> linarith
  · intro e he
    unfold default_trailing_capture_ms TRAILING_CAPTURE_MS
    dsimp only
    split_ifs <;> first | rfl | linarith

/-- Witness for `trailing_capture_tiers` at concrete durations. -/
theorem trailing_capture_tiers_witness :
    default_trailing_capture_ms (some 10) ≤ default_trailing_capture_ms (some 40)
    ∧ default_trailing_capture_ms (some 2) = 280 := by
  exact ⟨trailing_capture_tiers.1 10 40 (by norm_num),
    trailing_capture_tiers.2.2.2.1 2 (by norm_num)⟩

end VoiceFlow

namespace VoiceFlow

set_option maxHeartbeats 1000000 in
/-- Claim C6: for cleaned text that (stripped) ends with `?` or starts
with a question word from the fixed English/German set, the refinement
gate returns `false` — the refiner is never consulted for question-shaped
text (whatever the raw transcript argument). -/
theorem question_text_skips_refiner (text : List Char) (raw_text : Option (List Char))
    (h : (pyStrip text).getLast? = some '?' ∨ questionStart (pyStrip text) = true) :
    should_refine text raw_text = false := by
  have hb : (decide ((pyStrip text).getLast? = some '?')
      || questionStart (pyStrip text)) = true := by
    rcases h with h | h <;> simp [h]
  unfold should_refine
  dsimp only
  split_ifs <;> first | rfl | simp_all

/-- Witness for `question_text_skips_refiner`: a question mark and a
question word, each at a concrete input. -/
theorem question_text_skips_refiner_witness :
    should_refine ("Is this the right fix?").toList none = false
    ∧ should_refine ("what is polymorphism in oop").toList none = false := by
  exact ⟨question_text_skips_refiner _ none (Or.inl (by decide)),
    question_text_skips_refiner _ none (Or.inr (by decide))⟩

set_option maxHeartbeats 1000000 in
/-- Claim C7: a candidate that starts with an assistant-style opener
(`_ASSISTANTY_START_RE`) while the source does not is always classified
answer-like, so the refiner output is rejected. -/
theorem assistant_opener_is_answer_like (source candidate : List Char)
    (hc : assistantStart candidate = true) (hs : assistantStart source = false) :
    is_answer_like source candidate = true := by
  unfold is_answer_like
  dsimp only
  split_ifs <;> first | rfl | simp_all

/-- Witness for `assistant_opener_is_answer_like` at a concrete pair. -/
theorem assistant_opener_is_answer_like_witness :
    assistantStart ("Sure, here is a refactored parser.").toList = true
    ∧ assistantStart ("please refactor the parser module").toList = false
    ∧ is_answer_like ("please refactor the parser module").toList
        ("Sure, here is a refactored parser.").toList = true := by
  exact ⟨by decide, by decide,
    assistant_opener_is_answer_like _ _ (by decide) (by decide)⟩

end VoiceFlow

namespace VoiceFlow

set_option maxRecDepth 100000 in
/-- Claim C2, counterexample: the 26-word transcript
`completenessCounterexampleRaw` carries an inline `i mean` correction, so
cleaning rewrites it to the single word `Omega.`; the final output has 1
word, far below `0.78 × 26`, and the completeness fallback (as the claim
defines it) has NOT fired, because the correction cue in the raw text is
one of `_preserve_completeness`'s early exits. -/
theorem completeness_claim_counterexample :
    processTranscript completenessCounterexampleRaw [] false none = ("Omega.").toList
    ∧ wordCount completenessCounterexampleRaw = 26
    ∧ wordCount (processTranscript completenessCounterexampleRaw [] false none) = 1
    ∧ ¬(100 * wordCount (processTranscript completenessCounterexampleRaw [] false none)
        ≥ 78 * wordCount completenessCounterexampleRaw)
    ∧ specCompletenessFallback completenessCounterexampleRaw
        (processTranscript completenessCounterexampleRaw [] false none) = false := by
  have h : processTranscript completenessCounterexampleRaw [] false none
      = ("Omega.").toList := by decide
  rw [h]
  refine ⟨rfl, by decide, by decide, by decide, by decide⟩

set_option maxHeartbeats 1000000 in
/-- Claim C2, amended: for every run of `_preserve_completeness`, either
the output keeps at least `int(0.78 × raw_words)` words, or one of the
documented exits applies: raw has fewer than 24 words, the cleaned text
was empty, raw contains a correction cue, the drop stayed moderate
(at least `int(0.55 × raw_words)` words and no orphan-conjunction ending,
output unchanged), or the conservative fallback fired and the output has
at least as many words as the cleaned text. -/
theorem preserve_completeness_amended (raw cleaned : List Char)
    (dict : List (List Char × List Char)) (pm : Bool) :
    78 * wordCount raw / 100 ≤ wordCount (preserve_completeness raw cleaned dict pm)
    ∨ wordCount raw < 24
    ∨ wordCount cleaned = 0
    ∨ hasCorrectionCue raw = true
    ∨ (preserve_completeness raw cleaned dict pm = cleaned
        ∧ 55 * wordCount raw / 100 ≤ wordCount (preserve_completeness raw cleaned dict pm)
        ∧ orphanEnd (pyStrip (preserve_completeness raw cleaned dict pm)) = false)
    ∨ (completenessFallbackFired raw cleaned = true
        ∧ wordCount cleaned ≤ wordCount (preserve_completeness raw cleaned dict pm)) := by
  unfold preserve_completeness
  dsimp only
  split_ifs with h1 h2 h3 h4 h5
  · simp only [Bool.or_eq_true, decide_eq_true_eq] at h1
    rcases h1 with h | h
    · exact Or.inr (Or.inl h)
    · exact Or.inr (Or.inr (Or.inl h))
  · exact Or.inr (Or.inr (Or.inr (Or.inl h2)))
  · exact Or.inl h3
  · simp only [Bool.and_eq_true, Bool.not_eq_true', decide_eq_false_iff_not] at h4
    refine Or.inr (Or.inr (Or.inr (Or.inr (Or.inl ⟨rfl, ?_, h4.2⟩))))
    omega
  · refine Or.inr (Or.inr (Or.inr (Or.inr (Or.inr ⟨?_, by omega⟩))))
    simp only [Bool.or_eq_true, decide_eq_true_eq] at h1
    push_neg at h1
    simp only [Bool.and_eq_true, Bool.not_eq_true', decide_eq_false_iff_not] at h4
    push_neg at h4
    simp only [completenessFallbackFired, Bool.and_eq_true, Bool.or_eq_true,
      decide_eq_true_eq, Bool.not_eq_true']
    refine ⟨⟨⟨⟨by omega, by omega⟩, ?_⟩, by omega⟩, ?_⟩
    · simp [h2]
    · by_cases hs : wordCount cleaned < 55 * wordCount raw / 100
      · exact Or.inl hs
      · exact Or.inr (by simpa using h4 (by omega))
  · refine Or.inr (Or.inr (Or.inr (Or.inr (Or.inr ⟨?_, le_refl _⟩))))
    simp only [Bool.or_eq_true, decide_eq_true_eq] at h1
    push_neg at h1
    simp only [Bool.and_eq_true, Bool.not_eq_true', decide_eq_false_iff_not] at h4
    push_neg at h4
    simp only [completenessFallbackFired, Bool.and_eq_true, Bool.or_eq_true,
      decide_eq_true_eq, Bool.not_eq_true']
    refine ⟨⟨⟨⟨by omega, by omega⟩, ?_⟩, by omega⟩, ?_⟩
    · simp [h2]
    · by_cases hs : wordCount cleaned < 55 * wordCount raw / 100
      · exact Or.inl hs
      · exact Or.inr (by simpa using h4 (by omega))

set_option maxRecDepth 100000 in
/-- Claim C3, counterexample: `clean` is not idempotent.  Cleaning
`you know so what happened` removes the `you know` filler (a pass that
runs after the one leading-discourse strip), leaving `So what happened`;
cleaning that output strips the now-leading discourse marker `So`,
giving `What happened`. -/
theorem clean_not_idempotent_counterexample :
    clean (("you know so what happened").toList) [] false = ("So what happened").toList
    ∧ clean (("So what happened").toList) [] false = ("What happened").toList
    ∧ clean (clean (("you know so what happened").toList) [] false) [] false
        ≠ clean (("you know so what happened").toList) [] false := by
  have h1 : clean (("you know so what happened").toList) [] false
      = ("So what happened").toList := by decide
  have h2 : clean (("So what happened").toList) [] false
      = ("What happened").toList := by decide
  refine ⟨h1, h2, ?_⟩
  rw [h1, h2]
  decide

/-- Claim C3, amended: `clean` is idempotent on its fixed points — for
every input the cleaner leaves unchanged, a second application changes
nothing (the counterexample shows this is the most that survives: a first
pass may expose text, such as a leading discourse marker, that a second
pass rewrites). -/
theorem clean_idempotent_on_fixed_points (x : List Char)
    (dictionary : List (List Char × List Char)) (programmer_mode : Bool)
    (h : clean x dictionary programmer_mode = x) :
    clean (clean x dictionary programmer_mode) dictionary programmer_mode
      = clean x dictionary programmer_mode := by
  simp only [h]

set_option maxRecDepth 100000 in
/-- Witness for `clean_idempotent_on_fixed_points` at a concrete fixed
point. -/
theorem clean_idempotent_on_fixed_points_witness :
    clean (("What happened.").toList) [] false = ("What happened.").toList
    ∧ clean (clean (("What happened.").toList) [] false) [] false
        = clean (("What happened.").toList) [] false := by
  exact ⟨by decide, clean_idempotent_on_fixed_points _ [] false (by decide)⟩

end VoiceFlow
